import Mathlib

/-
Shallow embedding of the sb-live-lapse repository
(src/replot_latest_sba.py and src/replot_recent60_sba.py).

Python floats are modelled as rationals, Python strings as Lean strings,
Python dicts keyed by station id as functions `String → Option Row`,
raised exceptions as `Except`.  The two scripts duplicate the RASS
profile parser almost verbatim (`parse_rass_profile` vs `parse_rass`);
the parser is embedded once and serves both.  String scanning is done
over `String.data` character lists with explicit structural functions so
that every definition evaluates on concrete inputs; the kernel-level
rational operations are reopened for the same reason.
-/

set_option allowUnsafeReducibility true

attribute [semireducible] Rat.add Rat.sub Rat.mul Rat.div Rat.neg Rat.inv Rat.blt
  Rat.normalize Rat.ofScientific Rat.floor Rat.ceil

deriving instance DecidableEq for Except

/-- Prefix test over character lists (Python `str.startswith`). -/
def startsWithL : List Char → List Char → Bool
  | [], _ => true
  | _ :: _, [] => false
  | p :: ps, c :: cs => p == c && startsWithL ps cs

/-- Lexicographic code-point comparison of character lists (Python `<`
on strings). -/
def ltL : List Char → List Char → Bool
  | [], [] => false
  | [], _ :: _ => true
  | _ :: _, [] => false
  | a :: as, b :: bs => if a < b then true else if b < a then false else ltL as bs

/-- Python `str.strip()`: drop leading and trailing whitespace. -/
def pyStrip (s : String) : List Char :=
  ((s.data.dropWhile Char.isWhitespace).reverse.dropWhile Char.isWhitespace).reverse

/-- Worker of `pySplit`: accumulate the current token (reversed). -/
def splitWsAux : List Char → List Char → List (List Char)
  | [], acc => if acc.isEmpty then [] else [acc.reverse]
  | c :: t, acc =>
    if c.isWhitespace then
      if acc.isEmpty then splitWsAux t [] else acc.reverse :: splitWsAux t []
    else splitWsAux t (c :: acc)

/-- Python `str.split()` with no arguments: split on whitespace runs,
dropping empty pieces; tokens are character lists. -/
def pySplit (s : String) : List (List Char) :=
  splitWsAux s.data []

/-- Numeric value of a decimal digit character. -/
def digitVal (c : Char) : ℕ := c.toNat - 48

/-- Value of a big-endian decimal digit run. -/
def natOfDigits (ds : List Char) : ℕ := ds.foldl (fun a c => a * 10 + digitVal c) 0

/-- Split off the leading run of decimal digits. -/
def takeDigits : List Char → List Char × List Char
  | [] => ([], [])
  | c :: t =>
    if c.isDigit then
      let p := takeDigits t
      (c :: p.1, p.2)
    else ([], c :: t)

/-- Exponent part of a float literal (after the `e`/`E`). -/
def pyExp (m : ℚ) (cs : List Char) : Option ℚ :=
  let p : Bool × List Char :=
    match cs with
    | '+' :: t => (false, t)
    | '-' :: t => (true, t)
    | t => (false, t)
  match takeDigits p.2 with
  | ([], _) => none
  | (ds, []) => some (if p.1 then m / (10 : ℚ) ^ natOfDigits ds else m * (10 : ℚ) ^ natOfDigits ds)
  | (_, _ :: _) => none

/-- Model of Python `float(str)` on plain decimal/exponent literals (the
only shapes the feeds produce): optional sign, digits with an optional
single decimal point (at least one digit overall), optional exponent.
Other Python spellings (inf, nan, digit underscores) do not occur in the
feeds and are treated as unparseable. -/
def pyFloatL (cs : List Char) : Option ℚ :=
  let p0 : ℚ × List Char :=
    match cs with
    | '+' :: t => (1, t)
    | '-' :: t => (-1, t)
    | t => (1, t)
  let ipr := takeDigits p0.2
  let mr : Option ℚ × List Char :=
    match ipr.2 with
    | '.' :: t =>
      let fpr := takeDigits t
      (if ipr.1 = [] ∧ fpr.1 = [] then none
       else some ((natOfDigits ipr.1 : ℚ) + (natOfDigits fpr.1 : ℚ) / (10 : ℚ) ^ fpr.1.length),
       fpr.2)
    | _ => (if ipr.1 = [] then none else some (natOfDigits ipr.1 : ℚ), ipr.2)
  match mr.1 with
  | none => none
  | some m =>
    match mr.2 with
    | [] => some (p0.1 * m)
    | 'e' :: t => pyExp (p0.1 * m) t
    | 'E' :: t => pyExp (p0.1 * m) t
    | _ => none

/-- `pyFloatL` on a whole string (the XML attribute values). -/
def pyFloat (s : String) : Option ℚ := pyFloatL s.data

/-- Drop the first `.` of a character list (Python `replace(".", "", 1)`). -/
def dropFirstDot : List Char → List Char
  | [] => []
  | c :: t => if c = '.' then t else c :: dropFirstDot t

/-- Python `p.replace(".", "", 1).isdigit()`. -/
def pyIsNumTok (cs : List Char) : Bool :=
  let d := dropFirstDot cs
  !d.isEmpty && d.all Char.isDigit

/-- Python `s.zfill(2)` on the sign-free tokens accepted by `pyIsNumTok`. -/
def z2 (cs : List Char) : List Char :=
  if cs.length ≥ 2 then cs else if cs.length = 1 then '0' :: cs else ['0', '0']

/-- Timestamp scan of `parse_rass_profile`/`parse_rass`: first line whose
first six whitespace tokens are non-negative numerics with a two-char
year token becomes `20yy-mm-dd hh:mi:ss`; the caller passes the first
12 lines. -/
def obsOf : List String → Option String
  | [] => none
  | l :: ls =>
    let ps := pySplit l
    if 6 ≤ ps.length ∧ (ps.take 6).all pyIsNumTok ∧ (ps.headD []).length ≤ 2 then
      match ps with
      | yy :: mm :: dd :: hh :: mi :: ss :: _ =>
        some ("20" ++ String.mk yy ++ "-" ++ String.mk (z2 mm) ++ "-" ++ String.mk (z2 dd) ++
          " " ++ String.mk (z2 hh) ++ ":" ++ String.mk (z2 mi) ++ ":" ++ String.mk (z2 ss))
      | _ => none
    else obsOf ls

/-- Drop lines up to and including the first one whose stripped form
starts with the `HT` table marker; `none` when no marker exists. -/
def tableTail : List String → Option (List String)
  | [] => none
  | l :: ls => if startsWithL "HT".data (pyStrip l) then some ls else tableTail ls

/-- Data region of the table: lines before the first blank or `$`-led line. -/
def dataLines (ls : List String) : List String :=
  ls.takeWhile (fun l => !((pyStrip l).isEmpty || startsWithL "$".data (pyStrip l)))

/-- One data line of the table: needs two leading fields parsing as
floats; altitude km is converted to metres; a temperature at or above
the 999999 sentinel discards the point. -/
def parsePoint (l : String) : Option (ℚ × ℚ) :=
  match pySplit l with
  | p0 :: p1 :: _ =>
    match pyFloatL p0, pyFloatL p1 with
    | some a, some t => if t ≥ 999999 then none else some (a * 1000, t)
    | _, _ => none
  | _ => none

/-- Python `points.sort(key=lambda x: x[0])`: a stable sort by altitude
(any stable sort computes the same list; insertion sort keeps every
definition evaluable). -/
def sortPoints (ps : List (ℚ × ℚ)) : List (ℚ × ℚ) :=
  ps.insertionSort (fun a b => a.1 ≤ b.1)

/-- `int(math.ceil(q / 100.0) * 100)`. -/
def ceilHundred (q : ℚ) : ℤ := ⌈q / 100⌉ * 100

/-- `int(math.floor(q / 100.0) * 100)`. -/
def floorHundred (q : ℚ) : ℤ := ⌊q / 100⌋ * 100

/-- Closed form of Python `list(range(lo, hi + 1, 100))`. -/
def altGrid (lo hi : ℤ) : List ℤ :=
  if lo ≤ hi then (List.range ((hi - lo).toNat / 100 + 1)).map (fun (k : ℕ) => lo + 100 * (k : ℤ))
  else []

/-- One fuel-bounded unfolding of the advancing scan
`while j < len(points) - 2 and points[j+1][0] < alt: j += 1`;
the condition forces `j < len(points) - 2`, so `len(points)` fuel always
outlasts the loop. -/
def advanceAux (ps : List (ℚ × ℚ)) (alt : ℚ) : ℕ → ℕ → ℕ
  | 0, j => j
  | fuel + 1, j =>
    if j < ps.length - 2 ∧ (ps.getD (j + 1) (0, 0)).1 < alt then advanceAux ps alt fuel (j + 1)
    else j

/-- The advancing scan of the interpolation loop. -/
def advance (ps : List (ℚ × ℚ)) (alt : ℚ) (j : ℕ) : ℕ :=
  advanceAux ps alt ps.length j

/-- Interpolated temperature at one grid altitude given the scan index:
`(a0, t0) = points[j]`, `(a1, t1) = points[j+1]`, `t0` when `a1 == a0`,
otherwise `t0 + (t1 - t0) * (alt - a0) / (a1 - a0)`. -/
def interpOne (ps : List (ℚ × ℚ)) (j : ℕ) (alt : ℚ) : ℚ :=
  if (ps.getD (j + 1) (0, 0)).1 = (ps.getD j (0, 0)).1 then (ps.getD j (0, 0)).2
  else (ps.getD j (0, 0)).2 + ((ps.getD (j + 1) (0, 0)).2 - (ps.getD j (0, 0)).2) *
    (alt - (ps.getD j (0, 0)).1) / ((ps.getD (j + 1) (0, 0)).1 - (ps.getD j (0, 0)).1)

/-- The interpolation loop: the scan index is carried across grid steps. -/
def interpLoop (ps : List (ℚ × ℚ)) : ℕ → List ℤ → List (ℤ × ℚ)
  | _, [] => []
  | j, alt :: rest =>
    let j1 := advance ps (alt : ℚ) j
    (alt, interpOne ps j1 (alt : ℚ)) :: interpLoop ps j1 rest

/-- Resampling part of the parser: sort, build the 100 m grid between the
rounded endpoints, interpolate each grid altitude. -/
def resample (pts : List (ℚ × ℚ)) : List (ℤ × ℚ) :=
  let ps := sortPoints pts
  let lo := ceilHundred ((ps.headD (0, 0)).1)
  let hi := floorHundred ((ps.getLastD (0, 0)).1)
  interpLoop ps 0 (altGrid lo hi)

/-- Parser failures (`RuntimeError` in the scripts). -/
inductive PErr where
  | headerNotFound
  | notEnoughPoints
deriving DecidableEq, Repr

/-- `parse_rass_profile` / `parse_rass`, over the split lines of the raw
profile text. -/
def parse_rass (lines : List String) : Except PErr (Option String × List (ℤ × ℚ)) :=
  match tableTail lines with
  | none => .error .headerNotFound
  | some rest =>
    let pts := (dataLines rest).filterMap parsePoint
    if pts.length < 2 then .error .notEnoughPoints
    else .ok (obsOf (lines.take 12), resample pts)

/-- One parsed XML `<record>` element: attributes as optional strings
(the XML parsing itself is the external collaborator). -/
structure Rec where
  var : Option String
  shef_id : Option String
  ObTime : Option String
  elev : Option String
  data_value : Option String
  provider : Option String
deriving DecidableEq, Repr

/-- Python truthiness of `attrib.get(...)`: present and non-empty. -/
def truthyO : Option String → Bool
  | none => false
  | some s => !(s == "")

/-- Station rows of replot_latest_sba (also the rows query_madis builds). -/
structure Row where
  id : String
  elev_m : Option ℚ
  temp_c : Option ℚ
  ob_time : Option String
  provider : String
deriving DecidableEq, Repr

/-- Record filter of query_madis: variable selector plus the four
truthiness checks. -/
def usableL (r : Rec) : Bool :=
  r.var == some "V-T" && truthyO r.shef_id && truthyO r.ObTime &&
    truthyO r.elev && truthyO r.data_value

/-- Row built from a usable record, with Kelvin→Celsius conversion;
`none` models the ValueError from `float()` on a non-numeric field. -/
def recRow (r : Rec) : Option Row :=
  match pyFloat (r.elev.getD ""), pyFloat (r.data_value.getD "") with
  | some e, some v =>
    some ⟨r.shef_id.getD "", some e, some (v - (27315 : ℚ) / 100), some (r.ObTime.getD ""),
      r.provider.getD ""⟩
  | _, _ => none

/-- The keep-latest update `if prev is None or row["ob_time"] > prev["ob_time"]`
(Python compares the timestamp strings lexicographically). -/
def merge2 (o : Option Row) (row : Row) : Option Row :=
  match o with
  | none => some row
  | some prev =>
    if ltL (prev.ob_time.getD "").data (row.ob_time.getD "").data then some row else some prev

/-- `out[station_id] = row` on the station map. -/
def updateStation (m : String → Option Row) (row : Row) : String → Option Row :=
  fun s => if s = row.id then merge2 (m row.id) row else m s

/-- The record loop of query_madis: builds the station→row map; a
non-numeric elev/data_value on a usable record raises. -/
def queryMadis : List Rec → (String → Option Row) → Except String (String → Option Row)
  | [], m => .ok m
  | r :: rest, m =>
    if usableL r then
      match recRow r with
      | some row => queryMadis rest (updateStation m row)
      | none => .error "ValueError"
    else queryMadis rest m

/-- `query_madis(...)` followed by `rows.get(station_id)` after a
successful query. -/
def resolveL (recs : List Rec) (sid : String) : Option Row :=
  match queryMadis recs (fun _ => none) with
  | .ok out => out sid
  | .error _ => none

/-- The usable records of one station, as the rows query_madis builds
from them, in response order. -/
def sidRows (sid : String) : List Rec → List Row
  | [] => []
  | r :: rest =>
    if usableL r then
      match recRow r with
      | some row => if row.id = sid then row :: sidRows sid rest else sidRows sid rest
      | none => sidRows sid rest
    else sidRows sid rest

/-- Outcome of one lag-checkpoint attempt of fetch_one_station_fallback.
The attempt input is the transport/XML outcome (exception text, or the
parsed records); a ValueError inside query_madis lands in the same
`except` as a transport error. -/
def attemptResult (sid : String) (att : Except String (List Rec)) : Except String (Option Row) :=
  match att with
  | .error e => .error e
  | .ok recs =>
    match queryMadis recs (fun _ => none) with
    | .error e => .error e
    | .ok out => .ok (out sid)

/-- Provider text of the all-attempts-missed row. -/
def providerOf : Option String → String
  | none => "no_temp"
  | some e => "fetch_error: " ++ e

/-- fetch_one_station_fallback: walk the lag checkpoints carrying the
last captured error, return the first hit, otherwise the fully-missing
row; total, i.e. never raises. -/
def fetch_one_station_fallback (sid : String) :
    List (Except String (List Rec)) → Option String → Row
  | [], lastErr => ⟨sid, none, none, none, providerOf lastErr⟩
  | att :: rest, lastErr =>
    match attemptResult sid att with
    | .error e => fetch_one_station_fallback sid rest (some e)
    | .ok none => fetch_one_station_fallback sid rest lastErr
    | .ok (some row) => row

/-- The last captured error over the attempt list. -/
def lastErrOf (sid : String) : List (Except String (List Rec)) → Option String → Option String
  | [], acc => acc
  | att :: rest, acc =>
    match attemptResult sid att with
    | .error e => lastErrOf sid rest (some e)
    | .ok _ => lastErrOf sid rest acc

/-- Station rows of replot_recent60_sba. -/
structure RowR where
  id : String
  elev_m : Option ℚ
  temp_c : Option ℚ
  ob_time : Option String
  age_min : Option ℚ
  provider : String
  recent : Bool
deriving DecidableEq, Repr

/-- Record filter of fetch_station; unlike query_madis the station id
attribute is not inspected. -/
def usableR (r : Rec) : Bool :=
  r.var == some "V-T" && truthyO r.ObTime && truthyO r.elev && truthyO r.data_value

/-- Collected tuple `(ob_time, float(elev), float(val), provider)`. -/
structure TupR where
  obTime : String
  elev : ℚ
  val : ℚ
  provider : String
deriving DecidableEq, Repr

/-- The record collection loop of fetch_station; `float()` on a usable
record with a non-numeric field raises out of the function. -/
def collectRecs : List Rec → Except String (List TupR)
  | [] => .ok []
  | r :: rest =>
    if usableR r then
      match pyFloat (r.elev.getD ""), pyFloat (r.data_value.getD "") with
      | some e, some v =>
        match collectRecs rest with
        | .ok ts => .ok (⟨r.ObTime.getD "", e, v, r.provider.getD ""⟩ :: ts)
        | .error msg => .error msg
      | _, _ => .error "ValueError"
    else collectRecs rest

/-- Gregorian leap-year rule. -/
def isLeap (y : ℕ) : Bool := (y % 4 == 0 && y % 100 != 0) || y % 400 == 0

/-- Days in a month. -/
def daysInMonth (y m : ℕ) : ℕ :=
  if m = 2 then (if isLeap y then 29 else 28)
  else if m = 4 ∨ m = 6 ∨ m = 9 ∨ m = 11 then 30
  else 31

/-- Days of year y before month m. -/
def daysBeforeMonth (y m : ℕ) : ℕ :=
  (List.range (m - 1)).foldl (fun a k => a + daysInMonth y (k + 1)) 0

/-- Days from 0001-01-01 to y-m-d. -/
def daysOf (y m d : ℕ) : ℕ :=
  365 * (y - 1) + (y - 1) / 4 - (y - 1) / 100 + (y - 1) / 400 + daysBeforeMonth y m + (d - 1)

/-- Model of `datetime.strptime(s, "%Y-%m-%dT%H:%M")`, mapped to minutes
on a linear time scale; `none` models the ValueError on a malformed or
out-of-range timestamp. -/
def pyStrptimeMin (s : String) : Option ℤ :=
  match s.data with
  | [y1, y2, y3, y4, c1, m1, m2, c2, d1, d2, ct, h1, h2, cc, n1, n2] =>
    if y1.isDigit && y2.isDigit && y3.isDigit && y4.isDigit && (c1 == '-') &&
        m1.isDigit && m2.isDigit && (c2 == '-') && d1.isDigit && d2.isDigit &&
        (ct == 'T') && h1.isDigit && h2.isDigit && (cc == ':') && n1.isDigit && n2.isDigit then
      let y := natOfDigits [y1, y2, y3, y4]
      let m := natOfDigits [m1, m2]
      let d := natOfDigits [d1, d2]
      let h := natOfDigits [h1, h2]
      let n := natOfDigits [n1, n2]
      if 1 ≤ y ∧ 1 ≤ m ∧ m ≤ 12 ∧ 1 ≤ d ∧ d ≤ daysInMonth y m ∧ h ≤ 23 ∧ n ≤ 59 then
        some ((daysOf y m d : ℤ) * 1440 + h * 60 + n)
      else none
    else none
  | _ => none

/-- The sort keys of `records.sort(key=lambda r: datetime.strptime(...))`:
`strptime` runs on every record, so one malformed time raises (`none`). -/
def keyRecs : List TupR → Option (List (ℤ × TupR))
  | [] => some []
  | t :: rest =>
    match pyStrptimeMin t.obTime with
    | none => none
    | some k =>
      match keyRecs rest with
      | none => none
      | some ks => some ((k, t) :: ks)

/-- fetch_station of replot_recent60_sba.  The input nests the transport
outcome (outer) and the XML parse outcome (inner) around the parsed
records; `nowMin` is `now_utc` in minutes on the same scale as
`pyStrptimeMin`.  An `.error` result models an uncaught exception. -/
def fetch_station (sid : String) (nowMin : ℤ)
    (input : Except String (Except String (List Rec))) : Except String RowR :=
  match input with
  | .error e => .ok ⟨sid, none, none, none, none, "fetch_error: " ++ e, false⟩
  | .ok (.error e) => .ok ⟨sid, none, none, none, none, "xml_error: " ++ e, false⟩
  | .ok (.ok recs) =>
    match collectRecs recs with
    | .error msg => .error msg
    | .ok ts =>
      if ts.isEmpty then .ok ⟨sid, none, none, none, none, "no_temp", false⟩
      else
        match keyRecs ts with
        | none => .error "ValueError"
        | some keyed =>
          match (keyed.insertionSort (fun a b => a.1 ≤ b.1)).getLast? with
          | none => .error "IndexError"
          | some kt =>
            let age : ℚ := ((nowMin - kt.1 : ℤ) : ℚ)
            .ok ⟨sid, some kt.2.elev, some (kt.2.val - (27315 : ℚ) / 100), some kt.2.obTime,
              some age, kt.2.provider, decide (age ≤ 60)⟩

/-- Canvas width of draw_chart / draw_svg. -/
def widthC : ℕ := 940

/-- Canvas height. -/
def heightC : ℕ := 560

/-- Left margin. -/
def margin_left : ℕ := 90

/-- Right margin. -/
def margin_right : ℕ := 190

/-- Top margin. -/
def margin_top : ℕ := 50

/-- Bottom margin. -/
def margin_bottom : ℕ := 80

/-- Plot width. -/
def plot_w : ℕ := widthC - margin_left - margin_right

/-- Plot height. -/
def plot_h : ℕ := heightC - margin_top - margin_bottom

/-- Python `min` over a non-empty list (junk 0 on `[]`, where Python
would raise; every call site guarantees non-emptiness). -/
def pyMin : List ℚ → ℚ
  | [] => 0
  | x :: xs => xs.foldl min x

/-- Python `max` over a non-empty list. -/
def pyMax : List ℚ → ℚ
  | [] => 0
  | x :: xs => xs.foldl max x

/-- Dry-adiabatic reference curve anchored at the first grid point. -/
def dalr_temp (anchor : ℤ × ℚ) (alt : ℚ) : ℚ :=
  anchor.2 - (9.8 : ℚ) * (alt - (anchor.1 : ℚ)) / 1000

/-- The valid-station filter of draw_chart: temperature and elevation
both present. -/
def station_valid (ss : List Row) : List Row :=
  ss.filter (fun s => s.temp_c.isSome && s.elev_m.isSome)

/-- The elevations of the valid stations. -/
def yAltsOf (valid : List Row) : List ℚ := valid.filterMap (fun s => s.elev_m)

/-- Vertical range of draw_chart (replot_latest_sba) before the
degenerate-range adjustment. -/
def yRawL (pts : List (ℤ × ℚ)) (valid : List Row) : ℤ × ℤ :=
  (floorHundred (if (yAltsOf valid).isEmpty then min (((pts.headD (0, 0)).1 : ℚ)) 0
    else pyMin ([(((pts.headD (0, 0)).1 : ℚ)), 0] ++ yAltsOf valid)),
   ceilHundred (if (yAltsOf valid).isEmpty then (((pts.getLastD (0, 0)).1 : ℚ))
    else pyMax ([(((pts.getLastD (0, 0)).1 : ℚ))] ++ yAltsOf valid)))

/-- Vertical range of draw_chart (replot_latest_sba). -/
def yRangeL (pts : List (ℤ × ℚ)) (valid : List Row) : ℤ × ℤ :=
  if (yRawL pts valid).2 = (yRawL pts valid).1 then
    ((yRawL pts valid).1, (yRawL pts valid).2 + 100)
  else yRawL pts valid

/-- `x_vals` of draw_chart: profile temperatures, adiabatic temperatures
at the grid altitudes, valid station temperatures. -/
def xValsL (pts : List (ℤ × ℚ)) (valid : List Row) : List ℚ :=
  pts.map (fun p => p.2) ++ pts.map (fun p => dalr_temp (pts.headD (0, 0)) ((p.1 : ℚ))) ++
    valid.filterMap (fun s => s.temp_c)

/-- Horizontal range of draw_chart; as in the source, both branches of
the span test pad by the same 0.5. -/
def xRangeL (pts : List (ℤ × ℚ)) (valid : List Row) : ℚ × ℚ :=
  if pyMax (xValsL pts valid) - pyMin (xValsL pts valid) < 1 then
    (pyMin (xValsL pts valid) - 1/2, pyMax (xValsL pts valid) + 1/2)
  else (pyMin (xValsL pts valid) - 1/2, pyMax (xValsL pts valid) + 1/2)

/-- Vertical range of draw_svg (replot_recent60_sba) before the
degenerate-range adjustment; `alts` are the elevations present among the
plotted (recent) stations. -/
def yRawR (pts : List (ℤ × ℚ)) (alts : List ℚ) : ℚ × ℚ :=
  ((if alts.isEmpty then 0
    else ((floorHundred (pyMin ([0, (((pts.headD (0, 0)).1 : ℚ))] ++ alts)) : ℤ) : ℚ)),
   (if alts.isEmpty then (((pts.getLastD (0, 0)).1 : ℚ))
    else ((ceilHundred (pyMax ([(((pts.getLastD (0, 0)).1 : ℚ))] ++ alts)) : ℤ) : ℚ)))

/-- Vertical range of draw_svg (replot_recent60_sba). -/
def yRangeR (pts : List (ℤ × ℚ)) (alts : List ℚ) : ℚ × ℚ :=
  if (yRawR pts alts).2 ≤ (yRawR pts alts).1 then
    ((yRawR pts alts).1, (yRawR pts alts).1 + 100)
  else yRawR pts alts

/-- `x_vals` of draw_svg: profile temperatures, adiabatic temperatures,
then the temperatures present among the plotted stations. -/
def xValsR (pts : List (ℤ × ℚ)) (temps : List ℚ) : List ℚ :=
  pts.map (fun p => p.2) ++ pts.map (fun p => dalr_temp (pts.headD (0, 0)) ((p.1 : ℚ))) ++ temps

/-- Horizontal range of draw_svg: pad by 0.5 each side, then pad by a
further 0.5 each side when the span is still under 1. -/
def xRangeR (pts : List (ℤ × ℚ)) (temps : List ℚ) : ℚ × ℚ :=
  if (pyMax (xValsR pts temps) + 1/2) - (pyMin (xValsR pts temps) - 1/2) < 1 then
    (pyMin (xValsR pts temps) - 1/2 - 1/2, pyMax (xValsR pts temps) + 1/2 + 1/2)
  else (pyMin (xValsR pts temps) - 1/2, pyMax (xValsR pts temps) + 1/2)

/-- Two-digit zero pad. -/
def pad2 (n : ℕ) : String := if n < 10 then "0" ++ toString n else toString n

/-- Python `f"{q:.2f}"` (ties rounded up; only printed digits at exact
half-cent values can differ from CPython's binary round-half-even). -/
def fmt2 (q : ℚ) : String :=
  (if round (q * 100) < 0 then "-" else "") ++ toString ((round (q * 100)).natAbs / 100) ++
    "." ++ pad2 ((round (q * 100)).natAbs % 100)

/-- Python `f"{x:.1f}"` on an integer tick. -/
def fmt1 (x : ℤ) : String := toString x ++ ".0"

/-- x_to_svg. -/
def x_to_svg (xr : ℚ × ℚ) (t : ℚ) : ℚ :=
  (margin_left : ℚ) + (t - xr.1) / (xr.2 - xr.1) * (plot_w : ℚ)

/-- y_to_svg. -/
def y_to_svg (yr : ℤ × ℤ) (a : ℚ) : ℚ :=
  (margin_top : ℚ) + ((yr.2 : ℚ) - a) / ((yr.2 : ℚ) - (yr.1 : ℚ)) * (plot_h : ℚ)

/-- The observed polyline data. -/
def obs_path (xr : ℚ × ℚ) (yr : ℤ × ℤ) (pts : List (ℤ × ℚ)) : String :=
  String.intercalate " " (pts.mapIdx (fun i p =>
    (if i = 0 then "M" else "L") ++ fmt2 (x_to_svg xr p.2) ++ "," ++ fmt2 (y_to_svg yr ((p.1 : ℚ)))))

/-- The adiabatic polyline data. -/
def dalr_path (xr : ℚ × ℚ) (yr : ℤ × ℤ) (pts : List (ℤ × ℚ)) : String :=
  String.intercalate " " (pts.mapIdx (fun i p =>
    (if i = 0 then "M" else "L") ++ fmt2 (x_to_svg xr (dalr_temp (pts.headD (0, 0)) ((p.1 : ℚ)))) ++
      "," ++ fmt2 (y_to_svg yr ((p.1 : ℚ)))))

/-- Closed form of the tick-generating while loops: ticks start at
`start`, advance by `step > 0` while not exceeding `bound`. -/
def tickList (start step : ℤ) (bound : ℚ) : List ℤ :=
  if (start : ℚ) ≤ bound then
    (List.range ((⌊(bound - start) / (step : ℚ)⌋).toNat + 1)).map (fun k => start + step * k)
  else []

/-- Horizontal tick step chosen from the (padded) range. -/
def xStep (xr : ℚ × ℚ) : ℤ :=
  if xr.2 - xr.1 ≤ 5 then 1 else if xr.2 - xr.1 ≤ 10 then 2 else 5

/-- Horizontal ticks. -/
def xTicks (xr : ℚ × ℚ) : List ℤ :=
  tickList (⌈xr.1 / (xStep xr : ℚ)⌉ * xStep xr) (xStep xr) xr.2

/-- Vertical ticks (step 200 from the ceiling of the lower bound). -/
def yTicks (yr : ℤ × ℤ) : List ℤ :=
  tickList (⌈(yr.1 : ℚ) / 200⌉ * 200) 200 ((yr.2 : ℚ))

/-- The `<svg ...>` open tag. -/
def svgOpenTag : String :=
  "<svg xmlns=\"http://www.w3.org/2000/svg\" width=\"" ++ toString widthC ++ "\" height=\"" ++
    toString heightC ++ "\" viewBox=\"0 0 " ++ toString widthC ++ " " ++ toString heightC ++ "\">"

/-- The style block. -/
def styleLines : List String :=
  ["<style>",
   "  .axis \x7b stroke: #202020; stroke-width: 1; \x7d",
   "  .grid \x7b stroke: #dddddd; stroke-width: 1; \x7d",
   "  .title \x7b font-family: Helvetica, Arial, sans-serif; font-size: 16px; font-weight: 600; fill: #111111; \x7d",
   "  .subtitle \x7b font-family: Helvetica, Arial, sans-serif; font-size: 12px; fill: #555555; \x7d",
   "  .label \x7b font-family: Helvetica, Arial, sans-serif; font-size: 12px; fill: #222222; \x7d",
   "  .rass \x7b fill: none; stroke: #0077b6; stroke-width: 2; \x7d",
   "  .dalr \x7b fill: none; stroke: #d1495b; stroke-width: 2; stroke-dasharray: 6 4; \x7d",
   "  .rass-point \x7b fill: #0077b6; \x7d",
   "  .station \x7b fill: #f4a261; stroke: #8b4c12; stroke-width: 1; \x7d",
   "  .station-label \x7b font-family: Helvetica, Arial, sans-serif; font-size: 11px; fill: #444444; \x7d",
   "  .missing \x7b font-family: Helvetica, Arial, sans-serif; font-size: 11px; fill: #666666; \x7d",
   "</style>"]

/-- White background rect. -/
def bgRect : String :=
  "<rect x=\"0\" y=\"0\" width=\"" ++ toString widthC ++ "\" height=\"" ++ toString heightC ++
    "\" fill=\"#ffffff\" />"

/-- The chart title. -/
def chartTitle (obs_dt : Option String) : String :=
  match obs_dt with
  | some d => "SBA 449 MHz RASS Weber Wuertz Temp" ++ " (" ++ d ++ " UTC)"
  | none => "SBA 449 MHz RASS Weber Wuertz Temp"

/-- The chart subtitle. -/
def chartSubtitle (rass_file : String) : String :=
  "RASS file: " ++ rass_file ++ " | MADIS: latest available per station"

/-- Title text element. -/
def titleLine (t : String) : String :=
  "<text class=\"title\" x=\"" ++ toString margin_left ++ "\" y=\"" ++
    toString (margin_top - 22) ++ "\">" ++ t ++ "</text>"

/-- Subtitle text element. -/
def subtitleLine (t : String) : String :=
  "<text class=\"subtitle\" x=\"" ++ toString margin_left ++ "\" y=\"" ++
    toString (margin_top - 6) ++ "\">" ++ t ++ "</text>"

/-- Grid line and label of one vertical tick. -/
def yTickLines (yr : ℤ × ℤ) : List String :=
  (yTicks yr).flatMap (fun y =>
    ["<line class=\"grid\" x1=\"" ++ toString margin_left ++ "\" y1=\"" ++
       fmt2 (y_to_svg yr ((y : ℚ))) ++ "\" x2=\"" ++ toString (widthC - margin_right) ++
       "\" y2=\"" ++ fmt2 (y_to_svg yr ((y : ℚ))) ++ "\" />",
     "<text class=\"label\" x=\"" ++ toString (margin_left - 8) ++ "\" y=\"" ++
       fmt2 (y_to_svg yr ((y : ℚ)) + 4) ++ "\" text-anchor=\"end\">" ++ toString y ++ "</text>"])

/-- Grid line and label of one horizontal tick. -/
def xTickLines (xr : ℚ × ℚ) : List String :=
  (xTicks xr).flatMap (fun x =>
    ["<line class=\"grid\" x1=\"" ++ fmt2 (x_to_svg xr ((x : ℚ))) ++ "\" y1=\"" ++
       toString margin_top ++ "\" x2=\"" ++ fmt2 (x_to_svg xr ((x : ℚ))) ++ "\" y2=\"" ++
       toString (heightC - margin_bottom) ++ "\" />",
     "<text class=\"label\" x=\"" ++ fmt2 (x_to_svg xr ((x : ℚ))) ++ "\" y=\"" ++
       toString (heightC - margin_bottom + 18) ++ "\" text-anchor=\"middle\">" ++ fmt1 x ++
       "</text>"])

/-- Axis lines and axis labels. -/
def axisLines : List String :=
  ["<line class=\"axis\" x1=\"" ++ toString margin_left ++ "\" y1=\"" ++ toString margin_top ++
     "\" x2=\"" ++ toString margin_left ++ "\" y2=\"" ++ toString (heightC - margin_bottom) ++ "\" />",
   "<line class=\"axis\" x1=\"" ++ toString margin_left ++ "\" y1=\"" ++
     toString (heightC - margin_bottom) ++ "\" x2=\"" ++ toString (widthC - margin_right) ++
     "\" y2=\"" ++ toString (heightC - margin_bottom) ++ "\" />",
   "<text class=\"label\" x=\"" ++ fmt2 ((margin_left : ℚ) + (plot_w : ℚ) / 2) ++ "\" y=\"" ++
     toString (heightC - 30) ++ "\" text-anchor=\"middle\">Temperature (C)</text>",
   "<text class=\"label\" x=\"26\" y=\"" ++ fmt2 ((margin_top : ℚ) + (plot_h : ℚ) / 2) ++
     "\" text-anchor=\"middle\" transform=\"rotate(-90 26 " ++
     fmt2 ((margin_top : ℚ) + (plot_h : ℚ) / 2) ++ ")\">Altitude (m)</text>"]

/-- The two curve paths. -/
def pathLines (xr : ℚ × ℚ) (yr : ℤ × ℤ) (pts : List (ℤ × ℚ)) : List String :=
  ["<path class=\"rass\" d=\"" ++ obs_path xr yr pts ++ "\" />",
   "<path class=\"dalr\" d=\"" ++ dalr_path xr yr pts ++ "\" />"]

/-- One small marker per profile point. -/
def circleLines (xr : ℚ × ℚ) (yr : ℤ × ℤ) (pts : List (ℤ × ℚ)) : List String :=
  pts.map (fun p => "<circle class=\"rass-point\" cx=\"" ++ fmt2 (x_to_svg xr p.2) ++
    "\" cy=\"" ++ fmt2 (y_to_svg yr ((p.1 : ℚ))) ++ "\" r=\"2\" />")

/-- The bounded nudge-down label placement loop (30 attempts). -/
def nudge (used : List ℚ) : ℕ → ℚ → ℚ
  | 0, ly => ly
  | n + 1, ly => if used.all (fun p => decide (|ly - p| ≥ 12)) then ly else nudge used n (ly + 12)

/-- Clamp a label row into the plot's vertical bounds. -/
def clampLabel (ly : ℚ) : ℚ :=
  max ((margin_top : ℚ) + 10) (min ((heightC : ℚ) - (margin_bottom : ℚ) - 4) ly)

/-- One square station marker. -/
def markerRect (xpx ypx : ℚ) : String :=
  "<rect class=\"station\" x=\"" ++ fmt2 (xpx - 3) ++ "\" y=\"" ++ fmt2 (ypx - 3) ++
    "\" width=\"6\" height=\"6\" />"

/-- One station label, side-flipped when it would overflow the right margin. -/
def stationLabel (xpx ly : ℚ) (sid : String) : String :=
  if (widthC : ℚ) - (margin_right : ℚ) < xpx + 6 * sid.length + 8 then
    "<text class=\"station-label\" x=\"" ++ fmt2 (xpx - 6) ++ "\" y=\"" ++ fmt2 (ly + 4) ++
      "\" text-anchor=\"end\">" ++ sid ++ "</text>"
  else
    "<text class=\"station-label\" x=\"" ++ fmt2 (xpx + 6) ++ "\" y=\"" ++ fmt2 (ly + 4) ++
      "\" text-anchor=\"start\">" ++ sid ++ "</text>"

/-- The station loop of draw_chart: marker then label, accumulating the
used label rows. -/
def stationLines (xr : ℚ × ℚ) (yr : ℤ × ℤ) : List Row → List ℚ → List String
  | [], _ => []
  | s :: rest, used =>
    markerRect (x_to_svg xr (s.temp_c.getD 0)) (y_to_svg yr (s.elev_m.getD 0)) ::
      stationLabel (x_to_svg xr (s.temp_c.getD 0))
        (clampLabel (nudge used 30 (y_to_svg yr (s.elev_m.getD 0)))) s.id ::
      stationLines xr yr rest
        (used ++ [clampLabel (nudge used 30 (y_to_svg yr (s.elev_m.getD 0)))])

/-- Legend x anchor. -/
def legend_x : ℕ := widthC - margin_right + 10

/-- Legend y anchor. -/
def legend_y : ℕ := margin_top + 10

/-- The legend block (including the fixed station-style swatch). -/
def legendLines : List String :=
  ["<line class=\"rass\" x1=\"" ++ toString legend_x ++ "\" y1=\"" ++ toString legend_y ++
     "\" x2=\"" ++ toString (legend_x + 24) ++ "\" y2=\"" ++ toString legend_y ++ "\" />",
   "<text class=\"label\" x=\"" ++ toString (legend_x + 30) ++ "\" y=\"" ++
     toString (legend_y + 4) ++ "\">Observed (RASS)</text>",
   "<line class=\"dalr\" x1=\"" ++ toString legend_x ++ "\" y1=\"" ++ toString (legend_y + 20) ++
     "\" x2=\"" ++ toString (legend_x + 24) ++ "\" y2=\"" ++ toString (legend_y + 20) ++ "\" />",
   "<text class=\"label\" x=\"" ++ toString (legend_x + 30) ++ "\" y=\"" ++
     toString (legend_y + 24) ++ "\">DALR (9.8 C/km)</text>",
   "<rect class=\"station\" x=\"" ++ toString (legend_x + 9) ++ "\" y=\"" ++
     toString (legend_y + 34) ++ "\" width=\"6\" height=\"6\" />",
   "<text class=\"label\" x=\"" ++ toString (legend_x + 30) ++ "\" y=\"" ++
     toString (legend_y + 40) ++ "\">MADIS station</text>"]

/-- The stations reported as missing (temperature or elevation absent). -/
def missingIds (stations : List Row) : List String :=
  (stations.filter (fun s => !(s.temp_c.isSome && s.elev_m.isSome))).map (fun s => s.id)

/-- The no-MADIS-temp caption (emitted only when stations are missing). -/
def missingLines (stations : List Row) : List String :=
  if (missingIds stations).isEmpty then []
  else ["<text class=\"missing\" x=\"" ++ toString legend_x ++ "\" y=\"" ++
    toString (legend_y + 62) ++ "\">No MADIS temp: " ++
    String.intercalate ", " (missingIds stations) ++ "</text>"]

/-- draw_chart of replot_latest_sba: the `lines` list (joined by newlines
into the SVG document). -/
def draw_chart (pts : List (ℤ × ℚ)) (stations : List Row) (obs_dt : Option String)
    (rass_file : String) : List String :=
  ([svgOpenTag] ++ styleLines ++
      [bgRect, titleLine (chartTitle obs_dt), subtitleLine (chartSubtitle rass_file)]) ++
    yTickLines (yRangeL pts (station_valid stations)) ++
    xTickLines (xRangeL pts (station_valid stations)) ++ axisLines ++
    pathLines (xRangeL pts (station_valid stations)) (yRangeL pts (station_valid stations)) pts ++
    circleLines (xRangeL pts (station_valid stations)) (yRangeL pts (station_valid stations))
      pts ++
    stationLines (xRangeL pts (station_valid stations)) (yRangeL pts (station_valid stations))
      (station_valid stations) [] ++
    legendLines ++ missingLines stations ++ ["</svg>"]

/-- Does the string contain a decimal point? -/
def hasDot (s : String) : Bool := s.data.any (fun c => c == '.')

/-- Recognizer of the observed-curve path element. -/
def isRassPath (s : String) : Bool := startsWithL ("<path class=\"rass\" d=\"").data s.data

/-- Recognizer of the adiabatic-curve path element. -/
def isDalrPath (s : String) : Bool := startsWithL ("<path class=\"dalr\" d=\"").data s.data

/-- Recognizer of a station marker: a station-class rect whose
coordinates carry the two-decimal formatting (the legend swatch is
integer-formatted and has no decimal point). -/
def isStationMarker (s : String) : Bool :=
  startsWithL ("<rect class=\"station\" x=\"").data s.data && hasDot s

/-- y_to_px of draw_svg (replot_recent60_sba), whose range bounds stay
rational. -/
def y_to_svgR (yr : ℚ × ℚ) (a : ℚ) : ℚ :=
  (margin_top : ℚ) + (yr.2 - a) / (yr.2 - yr.1) * (plot_h : ℚ)

/-- The observed polyline data of draw_svg. -/
def obs_pathR (xr yr : ℚ × ℚ) (pts : List (ℤ × ℚ)) : String :=
  String.intercalate " " (pts.mapIdx (fun i p =>
    (if i = 0 then "M" else "L") ++ fmt2 (x_to_svg xr p.2) ++ "," ++
      fmt2 (y_to_svgR yr ((p.1 : ℚ)))))

/-- The adiabatic polyline data of draw_svg. -/
def dalr_pathR (xr yr : ℚ × ℚ) (pts : List (ℤ × ℚ)) : String :=
  String.intercalate " " (pts.mapIdx (fun i p =>
    (if i = 0 then "M" else "L") ++
      fmt2 (x_to_svg xr (dalr_temp (pts.headD (0, 0)) ((p.1 : ℚ)))) ++ "," ++
      fmt2 (y_to_svgR yr ((p.1 : ℚ)))))

/-- Vertical ticks of draw_svg (step 200 from the ceiling of the lower
bound). -/
def yTicksR (yr : ℚ × ℚ) : List ℤ :=
  tickList (⌈yr.1 / 200⌉ * 200) 200 yr.2

/-- The style block of draw_svg (a `.note` class in place of
`.missing`). -/
def styleLinesR : List String :=
  ["<style>",
   "  .axis \x7b stroke: #202020; stroke-width: 1; \x7d",
   "  .grid \x7b stroke: #dddddd; stroke-width: 1; \x7d",
   "  .title \x7b font-family: Helvetica, Arial, sans-serif; font-size: 16px; font-weight: 600; fill: #111111; \x7d",
   "  .subtitle \x7b font-family: Helvetica, Arial, sans-serif; font-size: 12px; fill: #555555; \x7d",
   "  .label \x7b font-family: Helvetica, Arial, sans-serif; font-size: 12px; fill: #222222; \x7d",
   "  .rass \x7b fill: none; stroke: #0077b6; stroke-width: 2; \x7d",
   "  .dalr \x7b fill: none; stroke: #d1495b; stroke-width: 2; stroke-dasharray: 6 4; \x7d",
   "  .rass-point \x7b fill: #0077b6; \x7d",
   "  .station \x7b fill: #f4a261; stroke: #8b4c12; stroke-width: 1; \x7d",
   "  .station-label \x7b font-family: Helvetica, Arial, sans-serif; font-size: 11px; fill: #444444; \x7d",
   "  .note \x7b font-family: Helvetica, Arial, sans-serif; font-size: 11px; fill: #666666; \x7d",
   "</style>"]

/-- The chart subtitle of draw_svg. -/
def chartSubtitleR (rass_file : String) : String :=
  "RASS file: " ++ rass_file ++ " | MADIS stations: latest obs within last 60 min"

/-- Grid line and label of one vertical tick of draw_svg. -/
def yTickLinesR (yr : ℚ × ℚ) : List String :=
  (yTicksR yr).flatMap (fun y =>
    ["<line class=\"grid\" x1=\"" ++ toString margin_left ++ "\" y1=\"" ++
       fmt2 (y_to_svgR yr ((y : ℚ))) ++ "\" x2=\"" ++ toString (widthC - margin_right) ++
       "\" y2=\"" ++ fmt2 (y_to_svgR yr ((y : ℚ))) ++ "\" />",
     "<text class=\"label\" x=\"" ++ toString (margin_left - 8) ++ "\" y=\"" ++
       fmt2 (y_to_svgR yr ((y : ℚ)) + 4) ++ "\" text-anchor=\"end\">" ++ toString y ++ "</text>"])

/-- The two curve paths of draw_svg. -/
def pathLinesR (xr yr : ℚ × ℚ) (pts : List (ℤ × ℚ)) : List String :=
  ["<path class=\"rass\" d=\"" ++ obs_pathR xr yr pts ++ "\" />",
   "<path class=\"dalr\" d=\"" ++ dalr_pathR xr yr pts ++ "\" />"]

/-- One small marker per profile point (draw_svg). -/
def circleLinesR (xr yr : ℚ × ℚ) (pts : List (ℤ × ℚ)) : List String :=
  pts.map (fun p => "<circle class=\"rass-point\" cx=\"" ++ fmt2 (x_to_svg xr p.2) ++
    "\" cy=\"" ++ fmt2 (y_to_svgR yr ((p.1 : ℚ))) ++ "\" r=\"2\" />")

/-- The station loop of draw_svg: one marker and one label for every row
of the `stations_recent` argument (no validity filter of its own), the
label nudged over 25 attempts. -/
def stationLinesR (xr yr : ℚ × ℚ) : List RowR → List ℚ → List String
  | [], _ => []
  | s :: rest, used =>
    markerRect (x_to_svg xr (s.temp_c.getD 0)) (y_to_svgR yr (s.elev_m.getD 0)) ::
      stationLabel (x_to_svg xr (s.temp_c.getD 0))
        (clampLabel (nudge used 25 (y_to_svgR yr (s.elev_m.getD 0)))) s.id ::
      stationLinesR xr yr rest
        (used ++ [clampLabel (nudge used 25 (y_to_svgR yr (s.elev_m.getD 0)))])

/-- The legend block of draw_svg (the caption of the station swatch
differs from the latest variant's). -/
def legendLinesR : List String :=
  ["<line class=\"rass\" x1=\"" ++ toString legend_x ++ "\" y1=\"" ++ toString legend_y ++
     "\" x2=\"" ++ toString (legend_x + 24) ++ "\" y2=\"" ++ toString legend_y ++ "\" />",
   "<text class=\"label\" x=\"" ++ toString (legend_x + 30) ++ "\" y=\"" ++
     toString (legend_y + 4) ++ "\">Observed (RASS)</text>",
   "<line class=\"dalr\" x1=\"" ++ toString legend_x ++ "\" y1=\"" ++ toString (legend_y + 20) ++
     "\" x2=\"" ++ toString (legend_x + 24) ++ "\" y2=\"" ++ toString (legend_y + 20) ++ "\" />",
   "<text class=\"label\" x=\"" ++ toString (legend_x + 30) ++ "\" y=\"" ++
     toString (legend_y + 24) ++ "\">DALR (9.8 C/km)</text>",
   "<rect class=\"station\" x=\"" ++ toString (legend_x + 9) ++ "\" y=\"" ++
     toString (legend_y + 34) ++ "\" width=\"6\" height=\"6\" />",
   "<text class=\"label\" x=\"" ++ toString (legend_x + 30) ++ "\" y=\"" ++
     toString (legend_y + 40) ++ "\">MADIS (<=60 min)</text>"]

/-- The stations reported as excluded (recent flag false). -/
def excludedIds (rows : List RowR) : List String :=
  (rows.filter (fun r => !r.recent)).map (fun r => r.id)

/-- The excluded-stations caption (emitted only when some station is not
recent). -/
def excludedLines (rows : List RowR) : List String :=
  if (excludedIds rows).isEmpty then []
  else ["<text class=\"note\" x=\"" ++ toString legend_x ++ "\" y=\"" ++
    toString (legend_y + 62) ++ "\">Excluded: " ++
    String.intercalate ", " (excludedIds rows) ++ "</text>"]

/-- Elevations present among the plotted (recent) stations. -/
def yAltsOfR (ss : List RowR) : List ℚ := ss.filterMap (fun s => s.elev_m)

/-- Temperatures present among the plotted (recent) stations. -/
def xTempsOfR (ss : List RowR) : List ℚ := ss.filterMap (fun s => s.temp_c)

/-- draw_svg of replot_recent60_sba: the `lines` list (joined by
newlines into the SVG document).  Markers are drawn for every row of
`stations_recent`; `stations_all` feeds only the excluded-stations
caption. -/
def draw_svg (pts : List (ℤ × ℚ)) (stations_recent stations_all : List RowR)
    (rass_time : Option String) (rass_file : String) : List String :=
  ([svgOpenTag] ++ styleLinesR ++
      [bgRect, titleLine (chartTitle rass_time), subtitleLine (chartSubtitleR rass_file)]) ++
    yTickLinesR (yRangeR pts (yAltsOfR stations_recent)) ++
    xTickLines (xRangeR pts (xTempsOfR stations_recent)) ++ axisLines ++
    pathLinesR (xRangeR pts (xTempsOfR stations_recent))
      (yRangeR pts (yAltsOfR stations_recent)) pts ++
    circleLinesR (xRangeR pts (xTempsOfR stations_recent))
      (yRangeR pts (yAltsOfR stations_recent)) pts ++
    stationLinesR (xRangeR pts (xTempsOfR stations_recent))
      (yRangeR pts (yAltsOfR stations_recent)) stations_recent [] ++
    legendLinesR ++ excludedLines stations_all ++ ["</svg>"]

/-- The recent-flag filter of main (replot_recent60_sba line 363),
applied to the station rows before rendering. -/
def station_recent (rows : List RowR) : List RowR :=
  rows.filter (fun r => r.recent)

/-- The chart of the recent60 variant as main assembles it (line 364):
only the recent-filtered rows are handed to draw_svg for plotting. -/
def chart_recent60 (pts : List (ℤ × ℚ)) (rows : List RowR) (rass_time : Option String)
    (rass_file : String) : List String :=
  draw_svg pts (station_recent rows) rows rass_time rass_file

/- ------------------------------------------------------------------ -/
/- Helper lemmas                                                      -/
/- ------------------------------------------------------------------ -/

theorem foldl_min_le_init (l : List ℚ) (a : ℚ) : l.foldl min a ≤ a := by
  induction l generalizing a with
  | nil => simp
  | cons x t ih =>
    calc (x :: t).foldl min a = t.foldl min (min a x) := rfl
    _ ≤ min a x := ih _
    _ ≤ a := min_le_left _ _

theorem foldl_min_le (l : List ℚ) (a x : ℚ) (hx : x ∈ l) : l.foldl min a ≤ x := by
  induction l generalizing a with
  | nil => cases hx
  | cons y t ih =>
    rcases List.mem_cons.mp hx with h | h
    · subst h
      calc (x :: t).foldl min a = t.foldl min (min a x) := rfl
      _ ≤ min a x := foldl_min_le_init t _
      _ ≤ x := min_le_right _ _
    · exact ih _ h

theorem init_le_foldl_max (l : List ℚ) (a : ℚ) : a ≤ l.foldl max a := by
  induction l generalizing a with
  | nil => simp
  | cons x t ih =>
    calc a ≤ max a x := le_max_left _ _
    _ ≤ t.foldl max (max a x) := ih _
    _ = (x :: t).foldl max a := rfl

theorem le_foldl_max (l : List ℚ) (a x : ℚ) (hx : x ∈ l) : x ≤ l.foldl max a := by
  induction l generalizing a with
  | nil => cases hx
  | cons y t ih =>
    rcases List.mem_cons.mp hx with h | h
    · subst h
      calc x ≤ max a x := le_max_right _ _
      _ ≤ t.foldl max (max a x) := init_le_foldl_max t _
      _ = (x :: t).foldl max a := rfl
    · exact ih _ h

theorem pyMin_le (l : List ℚ) (x : ℚ) (hx : x ∈ l) : pyMin l ≤ x := by
  cases l with
  | nil => cases hx
  | cons y t =>
    rcases List.mem_cons.mp hx with h | h
    · subst h; exact foldl_min_le_init t x
    · exact foldl_min_le t y x h

theorem le_pyMax (l : List ℚ) (x : ℚ) (hx : x ∈ l) : x ≤ pyMax l := by
  cases l with
  | nil => cases hx
  | cons y t =>
    rcases List.mem_cons.mp hx with h | h
    · subst h; exact init_le_foldl_max t x
    · exact le_foldl_max t y x h

theorem pyMin_le_pyMax (l : List ℚ) (h : l ≠ []) : pyMin l ≤ pyMax l := by
  cases l with
  | nil => exact absurd rfl h
  | cons y t =>
    exact le_trans (pyMin_le (y :: t) y (List.mem_cons_self y t))
      (le_pyMax (y :: t) y (List.mem_cons_self y t))

theorem floorHundred_le (q : ℚ) : ((floorHundred q : ℤ) : ℚ) ≤ q := by
  unfold floorHundred
  have h := Int.floor_le (q / 100)
  have h2 : ((⌊q / 100⌋ : ℤ) : ℚ) * 100 ≤ (q / 100) * 100 := by linarith
  have h3 : (q / 100) * 100 = q := by ring
  push_cast
  linarith

theorem le_ceilHundred (q : ℚ) : q ≤ ((ceilHundred q : ℤ) : ℚ) := by
  unfold ceilHundred
  have h := Int.le_ceil (q / 100)
  have h2 : (q / 100) * 100 ≤ ((⌈q / 100⌉ : ℤ) : ℚ) * 100 := by linarith
  have h3 : (q / 100) * 100 = q := by ring
  push_cast
  linarith

theorem interpLoop_map_fst (ps : List (ℚ × ℚ)) (j : ℕ) (g : List ℤ) :
    (interpLoop ps j g).map Prod.fst = g := by
  induction g generalizing j with
  | nil => rfl
  | cons a t ih => simp [interpLoop, ih]

theorem interpLoop_length (ps : List (ℚ × ℚ)) (j : ℕ) (g : List ℤ) :
    (interpLoop ps j g).length = g.length := by
  have h := interpLoop_map_fst ps j g
  calc (interpLoop ps j g).length = ((interpLoop ps j g).map Prod.fst).length :=
        (List.length_map _ _).symm
  _ = g.length := by rw [h]

theorem altGrid_getElem (lo hi : ℤ) (h : lo ≤ hi) (i : ℕ)
    (hi2 : i < (hi - lo).toNat / 100 + 1) :
    (altGrid lo hi)[i]? = some (lo + 100 * i) := by
  unfold altGrid
  rw [if_pos h, List.getElem?_map, List.getElem?_range hi2]
  rfl

theorem altGrid_length (lo hi : ℤ) (h : lo ≤ hi) :
    (altGrid lo hi).length = (hi - lo).toNat / 100 + 1 := by
  unfold altGrid
  rw [if_pos h, List.length_map, List.length_range]

theorem altGrid_eq_nil_iff (lo hi : ℤ) : altGrid lo hi = [] ↔ hi < lo := by
  by_cases h : lo ≤ hi
  · constructor
    · intro hEq
      have h2 := altGrid_length lo hi h
      rw [hEq] at h2
      simp only [List.length_nil] at h2
      omega
    · intro h2
      omega
  · constructor
    · intro _
      omega
    · intro _
      unfold altGrid
      rw [if_neg h]

/- ------------------------------------------------------------------ -/
/- C1: linear interpolation formula at scan-selected brackets          -/
/- ------------------------------------------------------------------ -/

/-- C1.  At each grid altitude, with `(a0,t0)` and `(a1,t1)` the
consecutive points selected by the advancing scan and `a0 ≤ a ≤ a1`:
for `a0 < a1` the resampled temperature is
`t0 + (t1-t0)*(a-a0)/(a1-a0)`; for equal bracketing altitudes the lower
point's `t0` is used; and at `a = a0` the result is exactly `t0`. -/
theorem claim_C1 (ps : List (ℚ × ℚ)) (j0 : ℕ) (alt : ℤ) (rest : List ℤ) (a : ℚ) (j : ℕ)
    (_hj : j = advance ps a j0) :
    interpLoop ps j0 (alt :: rest) =
      (alt, interpOne ps (advance ps (alt : ℚ) j0) (alt : ℚ)) ::
        interpLoop ps (advance ps (alt : ℚ) j0) rest ∧
    ((ps.getD j (0, 0)).1 ≤ a → a ≤ (ps.getD (j + 1) (0, 0)).1 →
      ((ps.getD j (0, 0)).1 < (ps.getD (j + 1) (0, 0)).1 →
        interpOne ps j a = (ps.getD j (0, 0)).2 +
          ((ps.getD (j + 1) (0, 0)).2 - (ps.getD j (0, 0)).2) * (a - (ps.getD j (0, 0)).1) /
            ((ps.getD (j + 1) (0, 0)).1 - (ps.getD j (0, 0)).1)) ∧
      ((ps.getD (j + 1) (0, 0)).1 = (ps.getD j (0, 0)).1 →
        interpOne ps j a = (ps.getD j (0, 0)).2)) ∧
    (a = (ps.getD j (0, 0)).1 → interpOne ps j a = (ps.getD j (0, 0)).2) := by
  refine ⟨rfl, ?_, ?_⟩
  · intro _ _
    constructor
    · intro hlt
      have hne : (ps.getD (j + 1) (0, 0)).1 ≠ (ps.getD j (0, 0)).1 := ne_of_gt hlt
      unfold interpOne
      rw [if_neg hne]
    · intro hEq
      unfold interpOne
      rw [if_pos hEq]
  · intro ha
    by_cases hEq : (ps.getD (j + 1) (0, 0)).1 = (ps.getD j (0, 0)).1
    · unfold interpOne
      rw [if_pos hEq]
    · unfold interpOne
      rw [if_neg hEq, ha, sub_self, mul_zero, zero_div, add_zero]

/-- C1 witness: spec end-to-end scenario 1, grid altitude 200 bracketed
by (100, 15.2) and (300, 12.8) gives exactly 14. -/
theorem claim_C1_witness :
    interpOne [((100 : ℚ), (15.2 : ℚ)), (300, 12.8), (600, 9.1)]
      (advance [((100 : ℚ), (15.2 : ℚ)), (300, 12.8), (600, 9.1)] 200 0) 200 = 14 := by
  have h := ((claim_C1 [((100 : ℚ), (15.2 : ℚ)), (300, 12.8), (600, 9.1)] 0 200 [] 200
    (advance [((100 : ℚ), (15.2 : ℚ)), (300, 12.8), (600, 9.1)] 200 0) rfl).2.1
      (by decide) (by decide)).1 (by decide)
  rw [h]
  decide

/- ------------------------------------------------------------------ -/
/- C2: the 100 m interpolation grid                                    -/
/- ------------------------------------------------------------------ -/

/-- C2.  The resampled output's altitudes are exactly the grid, and
whenever `ceil(min/100)*100 ≤ floor(max/100)*100` the grid starts at the
former, ends at the latter, and increases by exactly 100 between
consecutive entries. -/
theorem claim_C2 :
    (∀ pts : List (ℚ × ℚ), (resample pts).map Prod.fst =
      altGrid (ceilHundred ((sortPoints pts).headD (0, 0)).1)
        (floorHundred ((sortPoints pts).getLastD (0, 0)).1)) ∧
    (∀ a b : ℚ, ceilHundred a ≤ floorHundred b →
      (altGrid (ceilHundred a) (floorHundred b))[0]? = some (ceilHundred a) ∧
      (altGrid (ceilHundred a) (floorHundred b))[(altGrid (ceilHundred a)
        (floorHundred b)).length - 1]? = some (floorHundred b) ∧
      ∀ (i : ℕ) (x y : ℤ), (altGrid (ceilHundred a) (floorHundred b))[i]? = some x →
        (altGrid (ceilHundred a) (floorHundred b))[i + 1]? = some y → y = x + 100) := by
  constructor
  · intro pts
    exact interpLoop_map_fst (sortPoints pts) 0 _
  · intro a b h
    have hd : floorHundred b - ceilHundred a = 100 * (⌊b / 100⌋ - ⌈a / 100⌉) := by
      unfold ceilHundred floorHundred
      ring
    have hlen := altGrid_length (ceilHundred a) (floorHundred b) h
    refine ⟨?_, ?_, ?_⟩
    · have h0 := altGrid_getElem (ceilHundred a) (floorHundred b) h 0 (by omega)
      simpa using h0
    · have hL := altGrid_getElem (ceilHundred a) (floorHundred b) h
        ((floorHundred b - ceilHundred a).toNat / 100) (by omega)
      rw [hlen, Nat.add_sub_cancel, hL]
      have hv : ceilHundred a + 100 * (((floorHundred b - ceilHundred a).toNat / 100 : ℕ) : ℤ) =
          floorHundred b := by omega
      rw [hv]
    · intro i x y hx hy
      have hxlt : i < (floorHundred b - ceilHundred a).toNat / 100 + 1 := by
        by_contra hc
        rw [List.getElem?_eq_none (by rw [hlen]; omega)] at hx
        cases hx
      have hylt : i + 1 < (floorHundred b - ceilHundred a).toNat / 100 + 1 := by
        by_contra hc
        rw [List.getElem?_eq_none (by rw [hlen]; omega)] at hy
        cases hy
      rw [altGrid_getElem (ceilHundred a) (floorHundred b) h i hxlt] at hx
      rw [altGrid_getElem (ceilHundred a) (floorHundred b) h (i + 1) hylt] at hy
      have hx2 : x = ceilHundred a + 100 * (i : ℤ) := by
        cases hx
        rfl
      have hy2 : y = ceilHundred a + 100 * ((i + 1 : ℕ) : ℤ) := by
        cases hy
        rfl
      rw [hx2, hy2]
      push_cast
      ring

/-- C2 witness: source points at 150 m and 460 m give the grid
[200, 300, 400]. -/
theorem claim_C2_witness :
    (resample [((150 : ℚ), 5), (460, 8)]).map Prod.fst = altGrid 200 400 ∧
    (altGrid (ceilHundred 150) (floorHundred 460))[0]? = some (ceilHundred 150) := by
  constructor
  · exact (claim_C2.1 [((150 : ℚ), 5), (460, 8)]).trans (by decide)
  · exact (claim_C2.2 150 460 (by decide)).1

/- ------------------------------------------------------------------ -/
/- C8: empty-grid behaviour of the resampler                           -/
/- ------------------------------------------------------------------ -/

/-- C8 counterexample: when the rounded endpoints coincide (points at
100 m and 195 m both round to the 100 m bucket) the resampler returns a
single grid point, not an empty sequence; the claim "coincide ... returns
an empty sequence" fails here. -/
theorem claim_C8_counterexample :
    ceilHundred 100 = floorHundred 195 ∧
    resample [((100 : ℚ), 10), (195, 12)] = [(100, 10)] ∧
    parse_rass ["HT TEMP", "0.100 10.0", "0.195 12.0"] = .ok (none, [(100, 10)]) :=
  ⟨by decide, by decide, by decide⟩

/-- C8 amended: the resampler returns an empty sequence exactly when the
ceiling-rounded minimum exceeds the floor-rounded maximum; when the two
coincide it returns exactly one grid point. -/
theorem claim_C8_amended (pts : List (ℚ × ℚ)) :
    (resample pts = [] ↔
      floorHundred ((sortPoints pts).getLastD (0, 0)).1 <
        ceilHundred ((sortPoints pts).headD (0, 0)).1) ∧
    (ceilHundred ((sortPoints pts).headD (0, 0)).1 =
        floorHundred ((sortPoints pts).getLastD (0, 0)).1 →
      (resample pts).length = 1) := by
  have hres : resample pts = interpLoop (sortPoints pts) 0
      (altGrid (ceilHundred ((sortPoints pts).headD (0, 0)).1)
        (floorHundred ((sortPoints pts).getLastD (0, 0)).1)) := rfl
  constructor
  · rw [hres]
    constructor
    · intro hEq
      have h2 : (altGrid (ceilHundred ((sortPoints pts).headD (0, 0)).1)
          (floorHundred ((sortPoints pts).getLastD (0, 0)).1)).length = 0 := by
        rw [← interpLoop_length (sortPoints pts) 0, hEq]
        rfl
      have h3 := List.length_eq_zero.mp h2
      exact (altGrid_eq_nil_iff _ _).mp h3
    · intro hlt
      have h3 := (altGrid_eq_nil_iff (ceilHundred ((sortPoints pts).headD (0, 0)).1)
        (floorHundred ((sortPoints pts).getLastD (0, 0)).1)).mpr hlt
      rw [h3]
      rfl
  · intro hEqv
    rw [hres, interpLoop_length, altGrid_length _ _ (le_of_eq hEqv)]
    omega

/-- C8 amended witness: the coincide case yields exactly one point. -/
theorem claim_C8_witness :
    (resample [((100 : ℚ), 10), (195, 12)]).length = 1 :=
  (claim_C8_amended [((100 : ℚ), 10), (195, 12)]).2 (by decide)

/- ------------------------------------------------------------------ -/
/- C9: parser error conditions and line skipping                       -/
/- ------------------------------------------------------------------ -/

/-- C9.  Parsing fails exactly when the `HT` header marker is never
found or fewer than two valid points remain; a non-terminator data line
with fewer than two fields, a non-numeric first or second field, or a
temperature at or above 999999 is skipped without raising. -/
theorem claim_C9 :
    (∀ lines : List String,
      (∃ e, parse_rass lines = .error e) ↔
        (tableTail lines = none ∨
          ((dataLines ((tableTail lines).getD [])).filterMap parsePoint).length < 2)) ∧
    (∀ (l : String) (ls : List String),
      ¬(pyStrip l).isEmpty = true →
      ¬startsWithL "$".data (pyStrip l) = true →
      ((pySplit l).length < 2 ∨ pyFloatL ((pySplit l).getD 0 []) = none ∨
        pyFloatL ((pySplit l).getD 1 []) = none ∨
        (∃ t, pyFloatL ((pySplit l).getD 1 []) = some t ∧ t ≥ 999999)) →
      (dataLines (l :: ls)).filterMap parsePoint = (dataLines ls).filterMap parsePoint) := by
  constructor
  · intro lines
    cases h : tableTail lines with
    | none =>
      constructor
      · intro _
        exact Or.inl rfl
      · intro _
        refine ⟨.headerNotFound, ?_⟩
        unfold parse_rass
        rw [h]
    | some rest =>
      by_cases h2 : ((dataLines rest).filterMap parsePoint).length < 2
      · constructor
        · intro _
          exact Or.inr h2
        · intro _
          refine ⟨.notEnoughPoints, ?_⟩
          unfold parse_rass
          rw [h]
          simp only [if_pos h2]
      · constructor
        · intro hex
          obtain ⟨e, he⟩ := hex
          unfold parse_rass at he
          rw [h] at he
          simp only [if_neg h2] at he
          cases he
        · intro hor
          rcases hor with h3 | h3
          · cases h3
          · exact absurd h3 h2
  · intro l ls hnb hnd hbad
    have hnb' : (pyStrip l).isEmpty = false := by
      cases hb : (pyStrip l).isEmpty
      · rfl
      · exact absurd hb hnb
    have hnd' : startsWithL "$".data (pyStrip l) = false := by
      cases hd : startsWithL "$".data (pyStrip l)
      · rfl
      · exact absurd hd hnd
    have hdl : dataLines (l :: ls) = l :: dataLines ls := by
      unfold dataLines
      rw [List.takeWhile_cons]
      simp [hnb', hnd']
    have hpp : parsePoint l = none := by
      unfold parsePoint
      cases hsp : pySplit l with
      | nil => rfl
      | cons p0 r0 =>
        cases r0 with
        | nil => rfl
        | cons p1 r1 =>
          show (match pyFloatL p0, pyFloatL p1 with
            | some a, some t => if t ≥ 999999 then none else some (a * 1000, t)
            | _, _ => none) = none
          rcases hbad with hlen | h0 | h1 | ht
          · rw [hsp] at hlen
            exact absurd hlen (by simp)
          · rw [hsp] at h0
            simp only [List.getD_cons_zero] at h0
            rw [h0]
          · rw [hsp] at h1
            simp only [List.getD_cons_succ, List.getD_cons_zero] at h1
            rw [h1]
            cases pyFloatL p0 <;> rfl
          · obtain ⟨t, htv, hge⟩ := ht
            rw [hsp] at htv
            simp only [List.getD_cons_succ, List.getD_cons_zero] at htv
            rw [htv]
            cases pyFloatL p0 with
            | none => rfl
            | some av =>
              show (if t ≥ 999999 then none else some (av * 1000, t)) = none
              rw [if_pos hge]
    rw [hdl, List.filterMap_cons_none hpp]

/-- C9 witness: a sentinel-temperature line inside the table region is
skipped and contributes no point. -/
theorem claim_C9_witness :
    (dataLines ["0.200 999999", "0.100 5.0"]).filterMap parsePoint =
      (dataLines ["0.100 5.0"]).filterMap parsePoint :=
  claim_C9.2 "0.200 999999" ["0.100 5.0"] (by decide) (by decide)
    (Or.inr (Or.inr (Or.inr ⟨999999, by decide, by decide⟩)))

/- ------------------------------------------------------------------ -/
/- C3: per-station deduplication keeps the latest observation          -/
/- ------------------------------------------------------------------ -/

theorem ltL_asymm (a b : List Char) (h : ltL a b = true) : ltL b a = false := by
  induction a generalizing b with
  | nil =>
    cases b with
    | nil => simp [ltL] at h
    | cons c cs => simp [ltL]
  | cons x xs ih =>
    cases b with
    | nil => simp [ltL] at h
    | cons y ys =>
      unfold ltL at h ⊢
      by_cases h1 : x < y
      · have h2 : ¬y < x := lt_asymm h1
        rw [if_neg h2, if_pos h1]
      · rw [if_neg h1] at h
        by_cases h2 : y < x
        · rw [if_pos h2] at h
          cases h
        · rw [if_neg h2] at h
          rw [if_neg h2, if_neg h1]
          exact ih ys h

theorem merge2_cases (o : Option Row) (q p : Row) (hp : merge2 o q = some p) :
    p = q ∨ o = some p := by
  cases ho2 : o with
  | none =>
    rw [ho2] at hp
    simp only [merge2] at hp
    cases hp
    exact Or.inl rfl
  | some p' =>
    rw [ho2] at hp
    simp only [merge2] at hp
    by_cases hc : ltL (p'.ob_time.getD "").data (q.ob_time.getD "").data = true
    · rw [if_pos hc] at hp
      cases hp
      exact Or.inl rfl
    · rw [if_neg hc] at hp
      cases hp
      exact Or.inr rfl

theorem foldl_merge2_eq (rows : List Row) (o : Option Row) (r : Row)
    (hmem : r ∈ rows ∨ o = some r)
    (hrows : ∀ p ∈ rows, p ≠ r →
      ltL (p.ob_time.getD "").data (r.ob_time.getD "").data = true)
    (ho : ∀ p, o = some p → p ≠ r →
      ltL (p.ob_time.getD "").data (r.ob_time.getD "").data = true) :
    rows.foldl merge2 o = some r := by
  induction rows generalizing o with
  | nil =>
    rcases hmem with h | h
    · cases h
    · rw [h]
      rfl
  | cons q rows' ih =>
    rw [List.foldl_cons]
    apply ih (merge2 o q)
    · by_cases hq : q = r
      · subst hq
        right
        cases ho2 : o with
        | none => rfl
        | some p =>
          by_cases hp : p = q
          · subst hp
            simp only [merge2]
            split
            · rfl
            · rfl
          · have hlt := ho p ho2 hp
            simp only [merge2]
            rw [if_pos hlt]
      · rcases hmem with hm | hm
        · rcases List.mem_cons.mp hm with h' | h'
          · exact absurd h'.symm hq
          · exact Or.inl h'
        · right
          rw [hm]
          simp only [merge2]
          have hlt := hrows q (List.mem_cons_self q rows') hq
          have hfa := ltL_asymm _ _ hlt
          have hne : ¬ltL (r.ob_time.getD "").data (q.ob_time.getD "").data = true := by
            rw [hfa]
            simp
          rw [if_neg hne]
    · intro p hp hpr
      exact hrows p (List.mem_cons_of_mem q hp) hpr
    · intro p hp hpr
      rcases merge2_cases o q p hp with h' | h'
      · subst h'
        exact hrows p (List.mem_cons_self p rows') hpr
      · exact ho p h' hpr

theorem queryMadis_ok_lookup (recs : List Rec) (m : String → Option Row)
    (out : String → Option Row) (sid : String)
    (h : queryMadis recs m = .ok out) :
    out sid = (sidRows sid recs).foldl merge2 (m sid) := by
  induction recs generalizing m with
  | nil =>
    cases h
    rfl
  | cons r rest ih =>
    by_cases hu : usableL r
    · cases hr : recRow r with
      | none =>
        simp only [queryMadis, if_pos hu, hr] at h
        cases h
      | some row =>
        simp only [queryMadis, if_pos hu, hr] at h
        have h2 := ih (updateStation m row) h
        rw [h2]
        by_cases hid : row.id = sid
        · have hs : sidRows sid (r :: rest) = row :: sidRows sid rest := by
            simp only [sidRows, if_pos hu, hr, if_pos hid]
          have hm : updateStation m row sid = merge2 (m sid) row := by
            unfold updateStation
            rw [if_pos hid.symm, hid]
          rw [hs, hm, List.foldl_cons]
        · have hs : sidRows sid (r :: rest) = sidRows sid rest := by
            simp only [sidRows, if_pos hu, hr, if_neg hid]
          have hm : updateStation m row sid = m sid := by
            unfold updateStation
            rw [if_neg (fun hEq => hid hEq.symm)]
          rw [hs, hm]
    · simp only [queryMadis, if_neg hu] at h
      have h2 := ih m h
      rw [h2]
      have hs : sidRows sid (r :: rest) = sidRows sid rest := by
        simp only [sidRows, if_neg hu]
      rw [hs]

theorem pairwise_getLast {α : Type} {R : α → α → Prop} (s : List α) (L : α)
    (hp : s.Pairwise R) (hL : s.getLast? = some L) : ∀ y ∈ s, y = L ∨ R y L := by
  induction s with
  | nil =>
    intro y hy
    cases hy
  | cons a s' ih =>
    intro y hy
    cases s' with
    | nil =>
      rw [List.getLast?_singleton] at hL
      cases hL
      rcases List.mem_singleton.mp hy with h
      exact Or.inl h
    | cons b s'' =>
      have hL' : (b :: s'').getLast? = some L := by
        rw [List.getLast?_cons_cons] at hL
        exact hL
      rcases List.mem_cons.mp hy with h | h
      · subst h
        have hmemL : L ∈ b :: s'' :=
          List.mem_of_mem_getLast? (Option.mem_def.mpr hL')
        exact Or.inr ((List.pairwise_cons.mp hp).1 L hmemL)
      · exact ih (List.pairwise_cons.mp hp).2 hL' y h

theorem insertionSort_getLast_max (l : List (ℤ × TupR)) (x : ℤ × TupR)
    (hx : x ∈ l)
    (hmax : ∀ y ∈ l, y ≠ x → y.1 < x.1) :
    (l.insertionSort (fun a b => a.1 ≤ b.1)).getLast? = some x := by
  have hperm := List.perm_insertionSort (fun a b : ℤ × TupR => a.1 ≤ b.1) l
  have hxs : x ∈ l.insertionSort (fun a b => a.1 ≤ b.1) := hperm.mem_iff.mpr hx
  have hsorted : (l.insertionSort (fun a b => a.1 ≤ b.1)).Pairwise
      (fun a b : ℤ × TupR => a.1 ≤ b.1) :=
    @List.sorted_insertionSort (ℤ × TupR) (fun a b => a.1 ≤ b.1) _
      ⟨fun a b => le_total a.1 b.1⟩ ⟨fun _ _ _ h1 h2 => le_trans h1 h2⟩ l
  cases hgl : (l.insertionSort (fun a b => a.1 ≤ b.1)).getLast? with
  | none =>
    have hne : l.insertionSort (fun a b => a.1 ≤ b.1) ≠ [] := by
      intro h0
      rw [h0] at hxs
      cases hxs
    have h2 := List.getLast?_isSome.mpr hne
    rw [hgl] at h2
    cases h2
  | some L =>
    have hxL := pairwise_getLast _ L hsorted hgl x hxs
    rcases hxL with h | h
    · rw [h]
    · have hLs : L ∈ l.insertionSort (fun a b => a.1 ≤ b.1) :=
        List.mem_of_mem_getLast? (Option.mem_def.mpr hgl)
      have hLl : L ∈ l := hperm.mem_iff.mp hLs
      by_cases hLx : L = x
      · rw [hLx]
      · have hlt := hmax L hLl hLx
        omega

theorem keyRecs_eq_map (ts : List TupR)
    (h : ∀ u ∈ ts, (pyStrptimeMin u.obTime).isSome = true) :
    keyRecs ts = some (ts.map (fun t => ((pyStrptimeMin t.obTime).getD 0, t))) := by
  induction ts with
  | nil => rfl
  | cons u rest ih =>
    have hu := h u (List.mem_cons_self u rest)
    obtain ⟨k, hk⟩ := Option.isSome_iff_exists.mp hu
    have ih2 := ih (fun v hv => h v (List.mem_cons_of_mem u hv))
    simp only [keyRecs, hk, ih2, List.map_cons]
    rfl

/-- C3.  In both variants, a station whose usable records carry a unique
strictly-greatest observation time resolves to that record, regardless
of where it appears in the response: the batch variant's map lookup
returns the row of the strictly-latest usable record, and the direct
variant's sort-and-take-last returns the strictly-latest parsed record. -/
theorem claim_C3 :
    (∀ (recs : List Rec) (sid : String) (r : Row),
      (∃ out, queryMadis recs (fun _ => none) = .ok out) →
      r ∈ sidRows sid recs →
      (∀ p ∈ sidRows sid recs, p ≠ r →
        ltL (p.ob_time.getD "").data (r.ob_time.getD "").data = true) →
      resolveL recs sid = some r) ∧
    (∀ (sid : String) (nowMin : ℤ) (recs : List Rec) (ts : List TupR) (kr : ℤ) (t : TupR),
      collectRecs recs = .ok ts →
      t ∈ ts →
      pyStrptimeMin t.obTime = some kr →
      (∀ u ∈ ts, (pyStrptimeMin u.obTime).isSome = true) →
      (∀ u ∈ ts, ∀ ku : ℤ, pyStrptimeMin u.obTime = some ku → u ≠ t → ku < kr) →
      fetch_station sid nowMin (.ok (.ok recs)) =
        .ok ⟨sid, some t.elev, some (t.val - (27315 : ℚ) / 100), some t.obTime,
          some ((nowMin - kr : ℤ) : ℚ), t.provider, decide (((nowMin - kr : ℤ) : ℚ) ≤ 60)⟩) := by
  constructor
  · intro recs sid r hok hmem hmax
    obtain ⟨out, hq⟩ := hok
    unfold resolveL
    rw [hq]
    show out sid = some r
    rw [queryMadis_ok_lookup recs (fun _ => none) out sid hq]
    exact foldl_merge2_eq _ none r (Or.inl hmem) hmax (fun p hp => absurd hp (by simp))
  · intro sid nowMin recs ts kr t hc ht hk hall hmax
    have hne : ts ≠ [] := by
      intro h0
      rw [h0] at ht
      cases ht
    have hisEmpty : ts.isEmpty = false := by
      cases ts with
      | nil => exact absurd rfl hne
      | cons a b => rfl
    have hkeyed := keyRecs_eq_map ts hall
    have hkd : (pyStrptimeMin t.obTime).getD 0 = kr := by
      rw [hk]
      rfl
    have hxmem : (kr, t) ∈ ts.map (fun u => ((pyStrptimeMin u.obTime).getD 0, u)) := by
      rw [← hkd]
      exact List.mem_map_of_mem _ ht
    have hmax2 : ∀ y ∈ ts.map (fun u => ((pyStrptimeMin u.obTime).getD 0, u)),
        y ≠ (kr, t) → y.1 < kr := by
      intro y hy hne2
      obtain ⟨u, hu, hy2⟩ := List.mem_map.mp hy
      obtain ⟨ku, hku⟩ := Option.isSome_iff_exists.mp (hall u hu)
      by_cases hut : u = t
      · subst hut
        rw [← hy2, hkd] at hne2
        exact absurd rfl hne2
      · have := hmax u hu ku hku hut
        rw [← hy2]
        simp only [hku]
        exact this
    have hlast := insertionSort_getLast_max _ (kr, t) hxmem hmax2
    simp only [fetch_station, hc, hisEmpty, Bool.false_eq_true, if_false, hkeyed, hlast]

/-- C3 witness: two usable records for one station, older first; both
variants resolve to the later (10:00) record. -/
theorem claim_C3_witness :
    resolveL [⟨some "V-T", some "KSBA", some "2024-05-01T09:00", some "10", some "280.15", some "P1"⟩,
      ⟨some "V-T", some "KSBA", some "2024-05-01T10:00", some "12", some "281.15", some "P2"⟩]
      "KSBA" = some ⟨"KSBA", some 12, some 8, some "2024-05-01T10:00", "P2"⟩ ∧
    fetch_station "KSBA" 1064169270 (.ok (.ok
      [⟨some "V-T", some "KSBA", some "2024-05-01T09:00", some "10", some "280.15", some "P1"⟩,
       ⟨some "V-T", some "KSBA", some "2024-05-01T10:00", some "12", some "281.15", some "P2"⟩])) =
      .ok ⟨"KSBA", some 12, some 8, some "2024-05-01T10:00", some 30, "P2", true⟩ := by
  constructor
  · exact claim_C3.1 _ "KSBA" _ ⟨_, rfl⟩ (by decide) (by decide)
  · exact (claim_C3.2 "KSBA" 1064169270 _
      [⟨"2024-05-01T09:00", 10, 280.15, "P1"⟩, ⟨"2024-05-01T10:00", 12, 281.15, "P2"⟩]
      1064169240 ⟨"2024-05-01T10:00", 12, 281.15, "P2"⟩
      (by decide) (by decide) (by decide) (by decide) (by decide)).trans (by decide)

/- ------------------------------------------------------------------ -/
/- C4: per-station fetch error behaviour                               -/
/- ------------------------------------------------------------------ -/

/-- C4 counterexample: in the direct variant a usable record whose
elevation attribute is not numeric makes the per-station fetch raise
(`float()` is applied outside any try), refuting "the per-station fetch
never raises". -/
theorem claim_C4_counterexample :
    fetch_station "KSBA" 0 (.ok (.ok [⟨some "V-T", some "KSBA", some "2024-05-01T10:00",
      some "abc", some "288.15", some "MESO"⟩])) = .error "ValueError" := by
  decide

/-- C4 amended: the fallback variant's per-station fetch is total; when
no attempt yields a usable record it returns a fully-missing row whose
provider is "no_temp" when no error was captured and "fetch_error: e"
carrying the last captured error otherwise.  The direct variant returns
provider-diagnosed missing rows on transport or XML failure and
"no_temp" when no usable record exists, and does not raise provided
every usable record's numeric fields parse and its time is
well-formed. -/
theorem claim_C4_amended :
    (∀ (sid : String) (atts : List (Except String (List Rec))) (acc : Option String),
      (∀ att ∈ atts, ∀ o : Option Row, attemptResult sid att = .ok o → o = none) →
      fetch_one_station_fallback sid atts acc =
        ⟨sid, none, none, none, providerOf (lastErrOf sid atts acc)⟩) ∧
    (∀ (sid : String) (nowMin : ℤ) (e : String),
      fetch_station sid nowMin (.error e) =
        .ok ⟨sid, none, none, none, none, "fetch_error: " ++ e, false⟩) ∧
    (∀ (sid : String) (nowMin : ℤ) (e : String),
      fetch_station sid nowMin (.ok (.error e)) =
        .ok ⟨sid, none, none, none, none, "xml_error: " ++ e, false⟩) ∧
    (∀ (sid : String) (nowMin : ℤ) (recs : List Rec),
      collectRecs recs = .ok [] →
      fetch_station sid nowMin (.ok (.ok recs)) =
        .ok ⟨sid, none, none, none, none, "no_temp", false⟩) ∧
    (∀ (sid : String) (nowMin : ℤ) (recs : List Rec) (ts : List TupR),
      collectRecs recs = .ok ts →
      (∀ u ∈ ts, (pyStrptimeMin u.obTime).isSome = true) →
      ∃ row, fetch_station sid nowMin (.ok (.ok recs)) = .ok row) := by
  refine ⟨?_, ?_, ?_, ?_, ?_⟩
  · intro sid atts
    induction atts with
    | nil =>
      intro acc _
      rfl
    | cons att rest ih =>
      intro acc hmiss
      cases hres : attemptResult sid att with
      | error e =>
        simp only [fetch_one_station_fallback, lastErrOf, hres]
        exact ih (some e) (fun a ha o ho => hmiss a (List.mem_cons_of_mem att ha) o ho)
      | ok o =>
        have ho := hmiss att (List.mem_cons_self att rest) o hres
        subst ho
        simp only [fetch_one_station_fallback, lastErrOf, hres]
        exact ih acc (fun a ha o2 ho2 => hmiss a (List.mem_cons_of_mem att ha) o2 ho2)
  · intro sid nowMin e
    rfl
  · intro sid nowMin e
    rfl
  · intro sid nowMin recs hc
    simp [fetch_station, hc]
  · intro sid nowMin recs ts hc hall
    by_cases hni : ts.isEmpty
    · refine ⟨⟨sid, none, none, none, none, "no_temp", false⟩, ?_⟩
      simp [fetch_station, hc, hni]
    · have hkeyed := keyRecs_eq_map ts hall
      have hne : ts ≠ [] := by
        intro h0
        rw [h0] at hni
        exact hni rfl
      have hmapne : ts.map (fun t => ((pyStrptimeMin t.obTime).getD 0, t)) ≠ [] := by
        intro h0
        rw [List.map_eq_nil_iff] at h0
        exact hne h0
      have hsortne : (ts.map (fun t => ((pyStrptimeMin t.obTime).getD 0, t))).insertionSort
          (fun a b => a.1 ≤ b.1) ≠ [] := by
        intro h0
        have hp := List.perm_insertionSort
          (fun a b : ℤ × TupR => a.1 ≤ b.1) (ts.map (fun t => ((pyStrptimeMin t.obTime).getD 0, t)))
        rw [h0] at hp
        exact hmapne (hp.nil_eq).symm
      obtain ⟨kt, hgl⟩ := Option.isSome_iff_exists.mp (List.getLast?_isSome.mpr hsortne)
      refine ⟨⟨sid, some kt.2.elev, some (kt.2.val - (27315 : ℚ) / 100), some kt.2.obTime,
        some ((nowMin - kt.1 : ℤ) : ℚ), kt.2.provider, decide (((nowMin - kt.1 : ℤ) : ℚ) ≤ 60)⟩, ?_⟩
      simp only [fetch_station, hc, hni, Bool.false_eq_true, if_false, hkeyed, hgl]

/-- C4 witness: an erroring attempt followed by an empty snapshot gives
the error-diagnosed missing row in the fallback variant; a single
well-formed record keeps the direct variant raise-free. -/
theorem claim_C4_witness :
    fetch_one_station_fallback "KSBA" [Except.error "timeout", Except.ok []] none =
      ⟨"KSBA", none, none, none, "fetch_error: timeout"⟩ ∧
    (∃ row, fetch_station "KSBA" 0 (.ok (.ok [⟨some "V-T", some "KSBA",
      some "2024-05-01T10:00", some "120.5", some "288.15", some "MESO"⟩])) = .ok row) := by
  constructor
  · have hmiss : ∀ att ∈ [Except.error "timeout", Except.ok ([] : List Rec)],
        ∀ o : Option Row, attemptResult "KSBA" att = .ok o → o = none := by
      intro att hatt o ho
      rcases List.mem_cons.mp hatt with h1 | h1
      · subst h1
        simp only [attemptResult] at ho
        cases ho
      · rcases List.mem_cons.mp h1 with h2 | h2
        · subst h2
          simp only [attemptResult, queryMadis] at ho
          cases ho
          rfl
        · cases h2
    exact (claim_C4_amended.1 "KSBA" [Except.error "timeout", Except.ok []] none hmiss).trans
      (by decide)
  · exact claim_C4_amended.2.2.2.2 "KSBA" 0 _
      [⟨"2024-05-01T10:00", (241 : ℚ)/2, 288.15, "MESO"⟩] (by decide) (by decide)

/- ------------------------------------------------------------------ -/
/- C7: record usability filters                                        -/
/- ------------------------------------------------------------------ -/

theorem truthyO_isSome (o : Option String) (h : truthyO o = true) : o.isSome = true := by
  cases o with
  | none => cases h
  | some s => rfl

/-- C7 counterexample: in the direct variant a record with no station id
attribute (but time, elevation, value present) is used and becomes the
station's observation, refuting "contributes only when its station id
... [is] present". -/
theorem claim_C7_counterexample :
    (⟨some "V-T", none, some "2024-05-01T10:00", some "120.5", some "288.15",
      some "MESO"⟩ : Rec).shef_id = none ∧
    fetch_station "KSBA" 1064169270 (.ok (.ok [⟨some "V-T", none, some "2024-05-01T10:00",
      some "120.5", some "288.15", some "MESO"⟩])) =
      .ok ⟨"KSBA", some ((241 : ℚ)/2), some 15, some "2024-05-01T10:00", some 30, "MESO", true⟩ :=
  ⟨rfl, by decide⟩

/-- C7 amended: the batch variant uses a record only when station id,
observation time, elevation, and value are all present (and the variable
selector is V-T), skipping records missing any of them; the direct
per-station variant checks only observation time, elevation, and value
(the station is fixed by the query and the station id attribute is not
inspected). -/
theorem claim_C7_amended :
    (∀ (r : Rec) (rest : List Rec) (m : String → Option Row),
      usableL r = false → queryMadis (r :: rest) m = queryMadis rest m) ∧
    (∀ r : Rec, usableL r = true →
      r.var = some "V-T" ∧ r.shef_id.isSome = true ∧ r.ObTime.isSome = true ∧
        r.elev.isSome = true ∧ r.data_value.isSome = true) ∧
    (∀ (r : Rec) (rest : List Rec),
      usableR r = false → collectRecs (r :: rest) = collectRecs rest) ∧
    (∀ r : Rec, usableR r = true →
      r.var = some "V-T" ∧ r.ObTime.isSome = true ∧ r.elev.isSome = true ∧
        r.data_value.isSome = true) := by
  refine ⟨?_, ?_, ?_, ?_⟩
  · intro r rest m h
    simp only [queryMadis, h, Bool.false_eq_true, if_false]
  · intro r h
    simp only [usableL, Bool.and_eq_true, beq_iff_eq] at h
    obtain ⟨⟨⟨⟨hv, h1⟩, h2⟩, h3⟩, h4⟩ := h
    exact ⟨hv, truthyO_isSome _ h1, truthyO_isSome _ h2, truthyO_isSome _ h3,
      truthyO_isSome _ h4⟩
  · intro r rest h
    simp only [collectRecs, h, Bool.false_eq_true, if_false]
  · intro r h
    simp only [usableR, Bool.and_eq_true, beq_iff_eq] at h
    obtain ⟨⟨⟨hv, h1⟩, h2⟩, h3⟩ := h
    exact ⟨hv, truthyO_isSome _ h1, truthyO_isSome _ h2, truthyO_isSome _ h3⟩

/-- C7 witness: a record with the time attribute missing is skipped by
the batch variant; a record with the wrong variable selector is skipped
by the direct variant. -/
theorem claim_C7_witness :
    queryMadis [⟨some "V-T", some "KSBA", none, some "1", some "2", none⟩] (fun _ => none) =
      queryMadis [] (fun _ => none) ∧
    collectRecs [⟨some "RH", some "KSBA", some "2024-05-01T10:00", some "1", some "2", none⟩] =
      collectRecs [] :=
  ⟨claim_C7_amended.1 _ [] _ (by decide), claim_C7_amended.2.2.1 _ [] (by decide)⟩

/- ------------------------------------------------------------------ -/
/- C5: horizontal axis range                                           -/
/- ------------------------------------------------------------------ -/

theorem xValsL_ne_nil (pts : List (ℤ × ℚ)) (valid : List Row) (hpts : pts ≠ []) :
    xValsL pts valid ≠ [] := by
  unfold xValsL
  intro h0
  rw [List.append_assoc, List.append_eq_nil] at h0
  exact hpts (List.map_eq_nil_iff.mp h0.1)

theorem xValsR_ne_nil (pts : List (ℤ × ℚ)) (temps : List ℚ) (hpts : pts ≠ []) :
    xValsR pts temps ≠ [] := by
  unfold xValsR
  intro h0
  rw [List.append_assoc, List.append_eq_nil] at h0
  exact hpts (List.map_eq_nil_iff.mp h0.1)

/-- C5.  In both variants, any non-empty profile gives a horizontal
range equal to the minimum and maximum of the pooled profile, adiabatic,
and valid-station temperatures, padded by 0.5 on each side; the span
after that padding is never under 1, so the claim's further-padding
clause holds (vacuously in the batch variant, whose two branches pad
identically, and by its explicit branch in the direct variant). -/
theorem claim_C5 (pts : List (ℤ × ℚ)) (valid : List Row) (temps : List ℚ)
    (hpts : pts ≠ []) :
    (xRangeL pts valid).1 = pyMin (xValsL pts valid) - 1/2 ∧
    (xRangeL pts valid).2 = pyMax (xValsL pts valid) + 1/2 ∧
    1 ≤ (pyMax (xValsL pts valid) + 1/2) - (pyMin (xValsL pts valid) - 1/2) ∧
    ((pyMax (xValsL pts valid) + 1/2) - (pyMin (xValsL pts valid) - 1/2) < 1 →
      (xRangeL pts valid).1 = pyMin (xValsL pts valid) - 1 ∧
      (xRangeL pts valid).2 = pyMax (xValsL pts valid) + 1) ∧
    (xRangeR pts temps).1 = pyMin (xValsR pts temps) - 1/2 ∧
    (xRangeR pts temps).2 = pyMax (xValsR pts temps) + 1/2 ∧
    1 ≤ (pyMax (xValsR pts temps) + 1/2) - (pyMin (xValsR pts temps) - 1/2) ∧
    ((pyMax (xValsR pts temps) + 1/2) - (pyMin (xValsR pts temps) - 1/2) < 1 →
      (xRangeR pts temps).1 = pyMin (xValsR pts temps) - 1 ∧
      (xRangeR pts temps).2 = pyMax (xValsR pts temps) + 1) := by
  have hmL := pyMin_le_pyMax (xValsL pts valid) (xValsL_ne_nil pts valid hpts)
  have hmR := pyMin_le_pyMax (xValsR pts temps) (xValsR_ne_nil pts temps hpts)
  have hxl : xRangeL pts valid =
      (pyMin (xValsL pts valid) - 1/2, pyMax (xValsL pts valid) + 1/2) := by
    unfold xRangeL
    split
    · rfl
    · rfl
  have hxr : xRangeR pts temps =
      (pyMin (xValsR pts temps) - 1/2, pyMax (xValsR pts temps) + 1/2) := by
    unfold xRangeR
    split
    · rename_i hcond
      exact absurd hcond (by linarith)
    · rfl
  refine ⟨by rw [hxl], by rw [hxl], by linarith, ?_, by rw [hxr], by rw [hxr], by linarith, ?_⟩
  · intro hcond
    exact absurd hcond (by linarith)
  · intro hcond
    exact absurd hcond (by linarith)

/-- C5 witness: a two-point profile with no stations. -/
theorem claim_C5_witness :
    (xRangeL [((100 : ℤ), (15.2 : ℚ)), (300, 12.8)] []).1 =
      pyMin (xValsL [((100 : ℤ), (15.2 : ℚ)), (300, 12.8)] []) - 1/2 ∧
    1 ≤ (pyMax (xValsR [((100 : ℤ), (15.2 : ℚ)), (300, 12.8)] []) + 1/2) -
      (pyMin (xValsR [((100 : ℤ), (15.2 : ℚ)), (300, 12.8)] []) - 1/2) := by
  have h := claim_C5 [((100 : ℤ), (15.2 : ℚ)), (300, 12.8)] [] [] (by decide)
  exact ⟨h.1, h.2.2.2.2.2.2.1⟩

/- ------------------------------------------------------------------ -/
/- C10: the pixel-mapping ranges are non-degenerate                    -/
/- ------------------------------------------------------------------ -/

/-- C10.  For a non-empty profile with ascending grid endpoints: both
variants' vertical ranges end strictly ordered (a degenerate raw range
is expanded by 100), and both variants' horizontal ranges span at least
1 after padding — so neither pixel transform divides by zero. -/
theorem claim_C10 (pts : List (ℤ × ℚ)) (stations : List Row) (alts temps : List ℚ)
    (hpts : pts ≠ []) (hmono : (pts.headD (0, 0)).1 ≤ (pts.getLastD (0, 0)).1) :
    (yRangeL pts (station_valid stations)).1 < (yRangeL pts (station_valid stations)).2 ∧
    ((yRawL pts (station_valid stations)).2 = (yRawL pts (station_valid stations)).1 →
      yRangeL pts (station_valid stations) =
        ((yRawL pts (station_valid stations)).1, (yRawL pts (station_valid stations)).1 + 100)) ∧
    (yRangeR pts alts).1 < (yRangeR pts alts).2 ∧
    ((yRawR pts alts).2 ≤ (yRawR pts alts).1 →
      yRangeR pts alts = ((yRawR pts alts).1, (yRawR pts alts).1 + 100)) ∧
    1 ≤ (xRangeL pts (station_valid stations)).2 - (xRangeL pts (station_valid stations)).1 ∧
    1 ≤ (xRangeR pts temps).2 - (xRangeR pts temps).1 := by
  have hc5 := claim_C5 pts (station_valid stations) temps hpts
  have hraw : (yRawL pts (station_valid stations)).1 ≤ (yRawL pts (station_valid stations)).2 := by
    unfold yRawL
    have hq : (if (yAltsOf (station_valid stations)).isEmpty
          then min (((pts.headD (0, 0)).1 : ℚ)) 0
          else pyMin ([(((pts.headD (0, 0)).1 : ℚ)), 0] ++ yAltsOf (station_valid stations))) ≤
        (if (yAltsOf (station_valid stations)).isEmpty then (((pts.getLastD (0, 0)).1 : ℚ))
          else pyMax ([(((pts.getLastD (0, 0)).1 : ℚ))] ++ yAltsOf (station_valid stations))) := by
      have hmq : ((pts.headD (0, 0)).1 : ℚ) ≤ ((pts.getLastD (0, 0)).1 : ℚ) := by
        exact_mod_cast hmono
      split
      · exact le_trans (min_le_left _ _) hmq
      · refine le_trans (pyMin_le _ (((pts.headD (0, 0)).1 : ℚ)) (by simp)) ?_
        exact le_trans hmq (le_pyMax _ (((pts.getLastD (0, 0)).1 : ℚ)) (by simp))
    have h1 := le_trans (floorHundred_le _) (le_trans hq (le_ceilHundred _))
    exact_mod_cast h1
  refine ⟨?_, ?_, ?_, ?_, ?_, ?_⟩
  · unfold yRangeL
    by_cases hdeg : (yRawL pts (station_valid stations)).2 = (yRawL pts (station_valid stations)).1
    · rw [if_pos hdeg]
      omega
    · rw [if_neg hdeg]
      omega
  · intro hdeg
    unfold yRangeL
    rw [if_pos hdeg, hdeg]
  · unfold yRangeR
    by_cases hdeg : (yRawR pts alts).2 ≤ (yRawR pts alts).1
    · rw [if_pos hdeg]
      simp
    · rw [if_neg hdeg]
      linarith [not_le.mp hdeg]
  · intro hdeg
    unfold yRangeR
    rw [if_pos hdeg]
  · have h1 := hc5.1
    have h2 := hc5.2.1
    have h3 := hc5.2.2.1
    linarith
  · have h1 := hc5.2.2.2.2.1
    have h2 := hc5.2.2.2.2.2.1
    have h3 := hc5.2.2.2.2.2.2.1
    linarith

/-- C10 witness: a two-point profile, one valid station, no recent
stations. -/
theorem claim_C10_witness :
    (yRangeL [((100 : ℤ), (15.2 : ℚ)), (300, 12.8)]
      (station_valid [⟨"KSBA", some 3, some 14.2, some "t", "M"⟩])).1 <
    (yRangeL [((100 : ℤ), (15.2 : ℚ)), (300, 12.8)]
      (station_valid [⟨"KSBA", some 3, some 14.2, some "t", "M"⟩])).2 :=
  (claim_C10 [((100 : ℤ), (15.2 : ℚ)), (300, 12.8)] [⟨"KSBA", some 3, some 14.2, some "t", "M"⟩]
    [] [] (by decide) (by decide)).1

/- ------------------------------------------------------------------ -/
/- C6: one rass path, one dalr path, one marker per valid station     -/
/- ------------------------------------------------------------------ -/

theorem startsWithL_append_of_le (p l t : List Char) (h : p.length ≤ l.length) :
    startsWithL p (l ++ t) = startsWithL p l := by
  induction p generalizing l with
  | nil => cases l <;> rfl
  | cons c cs ih =>
    cases l with
    | nil => simp at h
    | cons d ds =>
      simp only [List.cons_append, startsWithL]
      have hih := ih ds (by simpa using h)
      simp only [List.append_eq] at hih ⊢
      rw [hih]

theorem startsWithL_false_append (p q s : List Char) (h : startsWithL p s = false) :
    startsWithL (p ++ q) s = false := by
  induction p generalizing s with
  | nil => simp [startsWithL] at h
  | cons c cs ih =>
    cases s with
    | nil => rfl
    | cons d ds =>
      simp only [List.cons_append, startsWithL] at h ⊢
      cases hc : (c == d) with
      | false => simp [hc]
      | true =>
        simp only [hc, Bool.true_and] at h ⊢
        exact ih ds h

theorem startsWithL_self_append (p t : List Char) : startsWithL p (p ++ t) = true := by
  induction p with
  | nil => rfl
  | cons c cs ih => simp [startsWithL, ih]

theorem startsWithL_head_false (P A B lit r : List Char)
    (hsplit : P = A ++ B) (hlen : A.length ≤ lit.length)
    (hA : startsWithL A lit = false) : startsWithL P (lit ++ r) = false := by
  subst hsplit
  apply startsWithL_false_append
  rw [startsWithL_append_of_le _ _ _ hlen]
  exact hA

theorem notRass (lit r : String) (hA : startsWithL ("<p").data lit.data = false)
    (hl : ("<p").data.length ≤ lit.data.length) : isRassPath (lit ++ r) = false := by
  unfold isRassPath
  rw [String.data_append]
  exact startsWithL_head_false _ ("<p").data ("ath class=\"rass\" d=\"").data _ _ rfl hl hA

theorem notDalr (lit r : String) (hA : startsWithL ("<p").data lit.data = false)
    (hl : ("<p").data.length ≤ lit.data.length) : isDalrPath (lit ++ r) = false := by
  unfold isDalrPath
  rw [String.data_append]
  exact startsWithL_head_false _ ("<p").data ("ath class=\"dalr\" d=\"").data _ _ rfl hl hA

theorem notMarker (lit r : String) (hA : startsWithL ("<r").data lit.data = false)
    (hl : ("<r").data.length ≤ lit.data.length) : isStationMarker (lit ++ r) = false := by
  unfold isStationMarker
  rw [String.data_append]
  have hfalse : startsWithL ("<rect class=\"station\" x=\"").data (lit.data ++ r.data) = false :=
    startsWithL_head_false ("<rect class=\"station\" x=\"").data ("<r").data
      ("ect class=\"station\" x=\"").data lit.data r.data rfl hl hA
  rw [hfalse]
  rfl

theorem allPreds_false (lit r : String) (hr : startsWithL ("<r").data lit.data = false)
    (hp : startsWithL ("<p").data lit.data = false) (hl : 2 ≤ lit.data.length) :
    isRassPath (lit ++ r) = false ∧ isDalrPath (lit ++ r) = false ∧
      isStationMarker (lit ++ r) = false :=
  ⟨notRass lit r hp hl, notDalr lit r hp hl, notMarker lit r hr hl⟩

theorem isRass_rassHead (r : String) : isRassPath ("<path class=\"rass\" d=\"" ++ r) = true := by
  unfold isRassPath
  rw [String.data_append]
  exact startsWithL_self_append _ _

theorem isDalr_dalrHead (r : String) : isDalrPath ("<path class=\"dalr\" d=\"" ++ r) = true := by
  unfold isDalrPath
  rw [String.data_append]
  exact startsWithL_self_append _ _

theorem notRass_dalrHead (r : String) :
    isRassPath ("<path class=\"dalr\" d=\"" ++ r) = false := by
  unfold isRassPath
  rw [String.data_append]
  exact startsWithL_head_false _ ("<path class=\"r").data ("ass\" d=\"").data _ _ rfl
    (by decide) (by decide)

theorem notDalr_rassHead (r : String) :
    isDalrPath ("<path class=\"rass\" d=\"" ++ r) = false := by
  unfold isDalrPath
  rw [String.data_append]
  exact startsWithL_head_false _ ("<path class=\"d").data ("alr\" d=\"").data _ _ rfl
    (by decide) (by decide)

theorem pathHead_notMarker_r (r : String) :
    isStationMarker ("<path class=\"rass\" d=\"" ++ r) = false :=
  notMarker _ _ (by decide) (by decide)

theorem pathHead_notMarker_d (r : String) :
    isStationMarker ("<path class=\"dalr\" d=\"" ++ r) = false :=
  notMarker _ _ (by decide) (by decide)

theorem hasDot_fmt2 (q : ℚ) : (fmt2 q).data.any (fun c => c == '.') = true := by
  unfold fmt2
  simp only [String.data_append, List.any_append]
  have h : (".").data.any (fun c => c == '.') = true := by decide
  rw [h]
  simp

theorem isMarker_markerRect (x y : ℚ) : isStationMarker (markerRect x y) = true := by
  unfold isStationMarker
  have h1 : startsWithL ("<rect class=\"station\" x=\"").data (markerRect x y).data = true := by
    unfold markerRect
    simp only [String.append_assoc, String.data_append]
    exact startsWithL_self_append _ _
  have h2 : hasDot (markerRect x y) = true := by
    unfold hasDot markerRect
    simp only [String.data_append, List.any_append]
    rw [hasDot_fmt2]
    simp
  rw [h1, h2]
  rfl

theorem markerRect_notRass (x y : ℚ) : isRassPath (markerRect x y) = false := by
  unfold markerRect
  simp only [String.append_assoc]
  exact notRass _ _ (by decide) (by decide)

theorem markerRect_notDalr (x y : ℚ) : isDalrPath (markerRect x y) = false := by
  unfold markerRect
  simp only [String.append_assoc]
  exact notDalr _ _ (by decide) (by decide)

theorem stationLabel_notRass (x ly : ℚ) (sid : String) :
    isRassPath (stationLabel x ly sid) = false := by
  unfold stationLabel
  split <;> (simp only [String.append_assoc]; exact notRass _ _ (by decide) (by decide))

theorem stationLabel_notDalr (x ly : ℚ) (sid : String) :
    isDalrPath (stationLabel x ly sid) = false := by
  unfold stationLabel
  split <;> (simp only [String.append_assoc]; exact notDalr _ _ (by decide) (by decide))

theorem stationLabel_notMarker (x ly : ℚ) (sid : String) :
    isStationMarker (stationLabel x ly sid) = false := by
  unfold stationLabel
  split <;> (simp only [String.append_assoc]; exact notMarker _ _ (by decide) (by decide))

theorem titleLine_preds (t : String) :
    isRassPath (titleLine t) = false ∧ isDalrPath (titleLine t) = false ∧
      isStationMarker (titleLine t) = false := by
  unfold titleLine
  simp only [String.append_assoc]
  exact allPreds_false _ _ (by decide) (by decide) (by decide)

theorem subtitleLine_preds (t : String) :
    isRassPath (subtitleLine t) = false ∧ isDalrPath (subtitleLine t) = false ∧
      isStationMarker (subtitleLine t) = false := by
  unfold subtitleLine
  simp only [String.append_assoc]
  exact allPreds_false _ _ (by decide) (by decide) (by decide)

theorem yTickLines_counts (yr : ℤ × ℤ) :
    (yTickLines yr).countP isRassPath = 0 ∧ (yTickLines yr).countP isDalrPath = 0 ∧
      (yTickLines yr).countP isStationMarker = 0 := by
  have h : ∀ a ∈ yTickLines yr, isRassPath a = false ∧ isDalrPath a = false ∧
      isStationMarker a = false := by
    intro a ha
    simp only [yTickLines, List.mem_flatMap, List.mem_cons, List.not_mem_nil, or_false] at ha
    obtain ⟨y, _, hmem⟩ := ha
    rcases hmem with h | h <;> subst h <;> simp only [String.append_assoc] <;>
      exact allPreds_false _ _ (by decide) (by decide) (by decide)
  refine ⟨?_, ?_, ?_⟩ <;> rw [List.countP_eq_zero] <;> intro a ha <;>
    simp [(h a ha).1, (h a ha).2.1, (h a ha).2.2]

theorem xTickLines_counts (xr : ℚ × ℚ) :
    (xTickLines xr).countP isRassPath = 0 ∧ (xTickLines xr).countP isDalrPath = 0 ∧
      (xTickLines xr).countP isStationMarker = 0 := by
  have h : ∀ a ∈ xTickLines xr, isRassPath a = false ∧ isDalrPath a = false ∧
      isStationMarker a = false := by
    intro a ha
    simp only [xTickLines, List.mem_flatMap, List.mem_cons, List.not_mem_nil, or_false] at ha
    obtain ⟨x, _, hmem⟩ := ha
    rcases hmem with h | h <;> subst h <;> simp only [String.append_assoc] <;>
      exact allPreds_false _ _ (by decide) (by decide) (by decide)
  refine ⟨?_, ?_, ?_⟩ <;> rw [List.countP_eq_zero] <;> intro a ha <;>
    simp [(h a ha).1, (h a ha).2.1, (h a ha).2.2]

theorem circleLines_counts (xr : ℚ × ℚ) (yr : ℤ × ℤ) (pts : List (ℤ × ℚ)) :
    (circleLines xr yr pts).countP isRassPath = 0 ∧
      (circleLines xr yr pts).countP isDalrPath = 0 ∧
      (circleLines xr yr pts).countP isStationMarker = 0 := by
  have h : ∀ a ∈ circleLines xr yr pts, isRassPath a = false ∧ isDalrPath a = false ∧
      isStationMarker a = false := by
    intro a ha
    simp only [circleLines, List.mem_map] at ha
    obtain ⟨p, _, hmem⟩ := ha
    subst hmem
    simp only [String.append_assoc]
    exact allPreds_false _ _ (by decide) (by decide) (by decide)
  refine ⟨?_, ?_, ?_⟩ <;> rw [List.countP_eq_zero] <;> intro a ha <;>
    simp [(h a ha).1, (h a ha).2.1, (h a ha).2.2]

theorem pathLines_counts (xr : ℚ × ℚ) (yr : ℤ × ℤ) (pts : List (ℤ × ℚ)) :
    (pathLines xr yr pts).countP isRassPath = 1 ∧ (pathLines xr yr pts).countP isDalrPath = 1 ∧
      (pathLines xr yr pts).countP isStationMarker = 0 := by
  refine ⟨?_, ?_, ?_⟩ <;>
    simp [pathLines, List.countP_cons, String.append_assoc, isRass_rassHead, isDalr_dalrHead,
      notRass_dalrHead, notDalr_rassHead, pathHead_notMarker_r, pathHead_notMarker_d]

theorem stationLines_counts (xr : ℚ × ℚ) (yr : ℤ × ℤ) (ss : List Row) (used : List ℚ) :
    (stationLines xr yr ss used).countP isRassPath = 0 ∧
      (stationLines xr yr ss used).countP isDalrPath = 0 ∧
      (stationLines xr yr ss used).countP isStationMarker = ss.length := by
  induction ss generalizing used with
  | nil => exact ⟨rfl, rfl, rfl⟩
  | cons s rest ih =>
    obtain ⟨h1, h2, h3⟩ :=
      ih (used ++ [clampLabel (nudge used 30 (y_to_svg yr (s.elev_m.getD 0)))])
    refine ⟨?_, ?_, ?_⟩ <;>
      simp [stationLines, List.countP_cons, h1, h2, h3, markerRect_notRass, markerRect_notDalr,
        isMarker_markerRect, stationLabel_notRass, stationLabel_notDalr, stationLabel_notMarker]

theorem missingLines_counts (stations : List Row) :
    (missingLines stations).countP isRassPath = 0 ∧
      (missingLines stations).countP isDalrPath = 0 ∧
      (missingLines stations).countP isStationMarker = 0 := by
  have h : ∀ a ∈ missingLines stations, isRassPath a = false ∧ isDalrPath a = false ∧
      isStationMarker a = false := by
    intro a ha
    unfold missingLines at ha
    split at ha
    · exact absurd ha (List.not_mem_nil a)
    · simp only [List.mem_cons, List.not_mem_nil, or_false] at ha
      subst ha
      simp only [String.append_assoc]
      exact allPreds_false _ _ (by decide) (by decide) (by decide)
  refine ⟨?_, ?_, ?_⟩ <;> rw [List.countP_eq_zero] <;> intro a ha <;>
    simp [(h a ha).1, (h a ha).2.1, (h a ha).2.2]

/-- The chart line list of `draw_chart` (latest variant) contains exactly one
observed-curve path element, exactly one adiabatic-reference path element, and
exactly one station marker rect per valid station (elevation and temperature
both present); the legend's station swatch is not counted as a marker since
its coordinates are integer-formatted. -/
theorem draw_chart_counts (pts : List (ℤ × ℚ)) (stations : List Row) (obs_dt : Option String)
    (rass_file : String) :
    (draw_chart pts stations obs_dt rass_file).countP isRassPath = 1 ∧
      (draw_chart pts stations obs_dt rass_file).countP isDalrPath = 1 ∧
      (draw_chart pts stations obs_dt rass_file).countP isStationMarker =
        (station_valid stations).length := by
  obtain ⟨t1, t2, t3⟩ := titleLine_preds (chartTitle obs_dt)
  obtain ⟨u1, u2, u3⟩ := subtitleLine_preds (chartSubtitle rass_file)
  obtain ⟨b1, b2, b3⟩ := yTickLines_counts (yRangeL pts (station_valid stations))
  obtain ⟨c1, c2, c3⟩ := xTickLines_counts (xRangeL pts (station_valid stations))
  obtain ⟨d1, d2, d3⟩ := pathLines_counts (xRangeL pts (station_valid stations))
    (yRangeL pts (station_valid stations)) pts
  obtain ⟨e1, e2, e3⟩ := circleLines_counts (xRangeL pts (station_valid stations))
    (yRangeL pts (station_valid stations)) pts
  obtain ⟨f1, f2, f3⟩ := stationLines_counts (xRangeL pts (station_valid stations))
    (yRangeL pts (station_valid stations)) (station_valid stations) []
  obtain ⟨g1, g2, g3⟩ := missingLines_counts stations
  have hsvg1 : isRassPath svgOpenTag = false := by decide
  have hsvg2 : isDalrPath svgOpenTag = false := by decide
  have hsvg3 : isStationMarker svgOpenTag = false := by decide
  have hbg1 : isRassPath bgRect = false := by decide
  have hbg2 : isDalrPath bgRect = false := by decide
  have hbg3 : isStationMarker bgRect = false := by decide
  have hend1 : isRassPath "</svg>" = false := by decide
  have hend2 : isDalrPath "</svg>" = false := by decide
  have hend3 : isStationMarker "</svg>" = false := by decide
  have hst1 : styleLines.countP isRassPath = 0 := by decide
  have hst2 : styleLines.countP isDalrPath = 0 := by decide
  have hst3 : styleLines.countP isStationMarker = 0 := by decide
  have hax1 : axisLines.countP isRassPath = 0 := by decide
  have hax2 : axisLines.countP isDalrPath = 0 := by decide
  have hax3 : axisLines.countP isStationMarker = 0 := by decide
  have hlg1 : legendLines.countP isRassPath = 0 := by decide
  have hlg2 : legendLines.countP isDalrPath = 0 := by decide
  have hlg3 : legendLines.countP isStationMarker = 0 := by decide
  refine ⟨?_, ?_, ?_⟩ <;>
    simp [draw_chart, List.countP_append, List.countP_cons, t1, t2, t3, u1, u2, u3,
      b1, b2, b3, c1, c2, c3, d1, d2, d3, e1, e2, e3, f1, f2, f3, g1, g2, g3,
      hsvg1, hsvg2, hsvg3, hbg1, hbg2, hbg3, hend1, hend2, hend3, hst1, hst2, hst3,
      hax1, hax2, hax3, hlg1, hlg2, hlg3]

/- ------------------------------------------------------------------ -/
/- C6 (recent60 variant): draw_svg counts and the recent filter        -/
/- ------------------------------------------------------------------ -/

theorem yTickLinesR_counts (yr : ℚ × ℚ) :
    (yTickLinesR yr).countP isRassPath = 0 ∧ (yTickLinesR yr).countP isDalrPath = 0 ∧
      (yTickLinesR yr).countP isStationMarker = 0 := by
  have h : ∀ a ∈ yTickLinesR yr, isRassPath a = false ∧ isDalrPath a = false ∧
      isStationMarker a = false := by
    intro a ha
    simp only [yTickLinesR, List.mem_flatMap, List.mem_cons, List.not_mem_nil, or_false] at ha
    obtain ⟨y, _, hmem⟩ := ha
    rcases hmem with h | h <;> subst h <;> simp only [String.append_assoc] <;>
      exact allPreds_false _ _ (by decide) (by decide) (by decide)
  refine ⟨?_, ?_, ?_⟩ <;> rw [List.countP_eq_zero] <;> intro a ha <;>
    simp [(h a ha).1, (h a ha).2.1, (h a ha).2.2]

theorem circleLinesR_counts (xr yr : ℚ × ℚ) (pts : List (ℤ × ℚ)) :
    (circleLinesR xr yr pts).countP isRassPath = 0 ∧
      (circleLinesR xr yr pts).countP isDalrPath = 0 ∧
      (circleLinesR xr yr pts).countP isStationMarker = 0 := by
  have h : ∀ a ∈ circleLinesR xr yr pts, isRassPath a = false ∧ isDalrPath a = false ∧
      isStationMarker a = false := by
    intro a ha
    simp only [circleLinesR, List.mem_map] at ha
    obtain ⟨p, _, hmem⟩ := ha
    subst hmem
    simp only [String.append_assoc]
    exact allPreds_false _ _ (by decide) (by decide) (by decide)
  refine ⟨?_, ?_, ?_⟩ <;> rw [List.countP_eq_zero] <;> intro a ha <;>
    simp [(h a ha).1, (h a ha).2.1, (h a ha).2.2]

theorem pathLinesR_counts (xr yr : ℚ × ℚ) (pts : List (ℤ × ℚ)) :
    (pathLinesR xr yr pts).countP isRassPath = 1 ∧
      (pathLinesR xr yr pts).countP isDalrPath = 1 ∧
      (pathLinesR xr yr pts).countP isStationMarker = 0 := by
  refine ⟨?_, ?_, ?_⟩ <;>
    simp [pathLinesR, List.countP_cons, String.append_assoc, isRass_rassHead, isDalr_dalrHead,
      notRass_dalrHead, notDalr_rassHead, pathHead_notMarker_r, pathHead_notMarker_d]

theorem stationLinesR_counts (xr yr : ℚ × ℚ) (ss : List RowR) (used : List ℚ) :
    (stationLinesR xr yr ss used).countP isRassPath = 0 ∧
      (stationLinesR xr yr ss used).countP isDalrPath = 0 ∧
      (stationLinesR xr yr ss used).countP isStationMarker = ss.length := by
  induction ss generalizing used with
  | nil => exact ⟨rfl, rfl, rfl⟩
  | cons s rest ih =>
    obtain ⟨h1, h2, h3⟩ :=
      ih (used ++ [clampLabel (nudge used 25 (y_to_svgR yr (s.elev_m.getD 0)))])
    refine ⟨?_, ?_, ?_⟩ <;>
      simp [stationLinesR, List.countP_cons, h1, h2, h3, markerRect_notRass, markerRect_notDalr,
        isMarker_markerRect, stationLabel_notRass, stationLabel_notDalr, stationLabel_notMarker]

theorem excludedLines_counts (rows : List RowR) :
    (excludedLines rows).countP isRassPath = 0 ∧
      (excludedLines rows).countP isDalrPath = 0 ∧
      (excludedLines rows).countP isStationMarker = 0 := by
  have h : ∀ a ∈ excludedLines rows, isRassPath a = false ∧ isDalrPath a = false ∧
      isStationMarker a = false := by
    intro a ha
    unfold excludedLines at ha
    split at ha
    · exact absurd ha (List.not_mem_nil a)
    · simp only [List.mem_cons, List.not_mem_nil, or_false] at ha
      subst ha
      simp only [String.append_assoc]
      exact allPreds_false _ _ (by decide) (by decide) (by decide)
  refine ⟨?_, ?_, ?_⟩ <;> rw [List.countP_eq_zero] <;> intro a ha <;>
    simp [(h a ha).1, (h a ha).2.1, (h a ha).2.2]

/-- The chart line list of `draw_svg` (recent60 variant) contains exactly one
observed-curve path, exactly one adiabatic-reference path, and exactly one
station marker rect per row of the `stations_recent` argument. -/
theorem draw_svg_counts (pts : List (ℤ × ℚ)) (sr sa : List RowR)
    (rass_time : Option String) (rass_file : String) :
    (draw_svg pts sr sa rass_time rass_file).countP isRassPath = 1 ∧
      (draw_svg pts sr sa rass_time rass_file).countP isDalrPath = 1 ∧
      (draw_svg pts sr sa rass_time rass_file).countP isStationMarker = sr.length := by
  obtain ⟨t1, t2, t3⟩ := titleLine_preds (chartTitle rass_time)
  obtain ⟨u1, u2, u3⟩ := subtitleLine_preds (chartSubtitleR rass_file)
  obtain ⟨b1, b2, b3⟩ := yTickLinesR_counts (yRangeR pts (yAltsOfR sr))
  obtain ⟨c1, c2, c3⟩ := xTickLines_counts (xRangeR pts (xTempsOfR sr))
  obtain ⟨d1, d2, d3⟩ := pathLinesR_counts (xRangeR pts (xTempsOfR sr))
    (yRangeR pts (yAltsOfR sr)) pts
  obtain ⟨e1, e2, e3⟩ := circleLinesR_counts (xRangeR pts (xTempsOfR sr))
    (yRangeR pts (yAltsOfR sr)) pts
  obtain ⟨f1, f2, f3⟩ := stationLinesR_counts (xRangeR pts (xTempsOfR sr))
    (yRangeR pts (yAltsOfR sr)) sr []
  obtain ⟨g1, g2, g3⟩ := excludedLines_counts sa
  have hsvg1 : isRassPath svgOpenTag = false := by decide
  have hsvg2 : isDalrPath svgOpenTag = false := by decide
  have hsvg3 : isStationMarker svgOpenTag = false := by decide
  have hbg1 : isRassPath bgRect = false := by decide
  have hbg2 : isDalrPath bgRect = false := by decide
  have hbg3 : isStationMarker bgRect = false := by decide
  have hend1 : isRassPath "</svg>" = false := by decide
  have hend2 : isDalrPath "</svg>" = false := by decide
  have hend3 : isStationMarker "</svg>" = false := by decide
  have hst1 : styleLinesR.countP isRassPath = 0 := by decide
  have hst2 : styleLinesR.countP isDalrPath = 0 := by decide
  have hst3 : styleLinesR.countP isStationMarker = 0 := by decide
  have hax1 : axisLines.countP isRassPath = 0 := by decide
  have hax2 : axisLines.countP isDalrPath = 0 := by decide
  have hax3 : axisLines.countP isStationMarker = 0 := by decide
  have hlg1 : legendLinesR.countP isRassPath = 0 := by decide
  have hlg2 : legendLinesR.countP isDalrPath = 0 := by decide
  have hlg3 : legendLinesR.countP isStationMarker = 0 := by decide
  refine ⟨?_, ?_, ?_⟩ <;>
    simp [draw_svg, List.countP_append, List.countP_cons, t1, t2, t3, u1, u2, u3,
      b1, b2, b3, c1, c2, c3, d1, d2, d3, e1, e2, e3, f1, f2, f3, g1, g2, g3,
      hsvg1, hsvg2, hsvg3, hbg1, hbg2, hbg3, hend1, hend2, hend3, hst1, hst2, hst3,
      hax1, hax2, hax3, hlg1, hlg2, hlg3]

/-- C6 counterexample: in the recent60 variant a station whose elevation and
temperature are both present but whose recent flag is false (a stale
observation) is dropped by main's filter before draw_svg and gets no marker:
the assembled chart holds zero station markers although one supplied station
has both fields present. -/
theorem claim_C6_counterexample :
    (⟨"SE234", some 120, some 15, some "2024-05-01T10:00", some 120, "MESO", false⟩ :
        RowR).elev_m.isSome = true ∧
    (⟨"SE234", some 120, some 15, some "2024-05-01T10:00", some 120, "MESO", false⟩ :
        RowR).temp_c.isSome = true ∧
    (chart_recent60 [((100 : ℤ), (10 : ℚ)), (200, 12)]
        [⟨"SE234", some 120, some 15, some "2024-05-01T10:00", some 120, "MESO", false⟩]
        (some "2024-05-01 10:00:00") "sba25126.14t").countP isStationMarker = 0 := by
  refine ⟨rfl, rfl, ?_⟩
  exact (draw_svg_counts [((100 : ℤ), (10 : ℚ)), (200, 12)] []
    [⟨"SE234", some 120, some 15, some "2024-05-01T10:00", some 120, "MESO", false⟩]
    (some "2024-05-01 10:00:00") "sba25126.14t").2.2

/-- C6 amended: the latest variant's draw_chart emits exactly one
observed-profile path, one adiabatic-reference path, and one square station
marker per valid station (elevation and temperature both present).  In the
recent60 variant, main filters the station rows by the recent flag before
draw_svg, so the rendered chart holds exactly one observed path, one adiabatic
path, and one marker per recent row; a station with both fields present but a
stale observation gets no marker there. -/
theorem claim_C6_amended (pts : List (ℤ × ℚ)) (stations : List Row) (rows : List RowR)
    (obs_dt rass_time : Option String) (rass_file : String) :
    ((draw_chart pts stations obs_dt rass_file).countP isRassPath = 1 ∧
      (draw_chart pts stations obs_dt rass_file).countP isDalrPath = 1 ∧
      (draw_chart pts stations obs_dt rass_file).countP isStationMarker =
        (station_valid stations).length) ∧
    ((chart_recent60 pts rows rass_time rass_file).countP isRassPath = 1 ∧
      (chart_recent60 pts rows rass_time rass_file).countP isDalrPath = 1 ∧
      (chart_recent60 pts rows rass_time rass_file).countP isStationMarker =
        (station_recent rows).length) :=
  ⟨draw_chart_counts pts stations obs_dt rass_file,
   draw_svg_counts pts (station_recent rows) rows rass_time rass_file⟩
